import Mathlib

/-!
# CareFlow analytics engine — verification development

Shallow embedding of the analytics engine of the CareFlow repository
(`src/services/bottleneckDetectionService.ts`, `src/services/dataService.ts`,
the patient-flow / simulation / prediction service files) together with
theorems settling the specification claims.

Modelling conventions:
* JS `number` is modelled by `ℚ` wherever the source only performs field
  arithmetic, and by `ℝ` where `Math.sqrt` enters (standard deviations and
  every quantity downstream of them).
* Timestamps (`new Date(s).getTime()`) are modelled as rational epoch
  milliseconds; durations are minutes, as in the source.
* JS `Map` (which preserves insertion order) is modelled by an ordered
  association list with `lookupKey` / `upsert`.
* `Array.prototype.sort` is modelled by `List.insertionSort` with the
  comparator's ordering; none of the claims depend on stability.
* JS `Math.round(x)` is `⌊x + 1/2⌋` (round half up), see `jsRound`.
-/

namespace CareFlow


/-- JS `Math.round`: round half toward positive infinity. -/
def jsRound {α : Type*} [LinearOrderedField α] [FloorRing α] (x : α) : α :=
  ((⌊x + 1/2⌋ : ℤ) : α)

/-- JS `Math.round(x * 10) / 10` (round to one decimal place). -/
def jsRound1 {α : Type*} [LinearOrderedField α] [FloorRing α] (x : α) : α :=
  ((⌊x * 10 + 1/2⌋ : ℤ) : α) / 10

/-- JS `Math.round(x * 100) / 100` (round to two decimal places). -/
def jsRound2 {α : Type*} [LinearOrderedField α] [FloorRing α] (x : α) : α :=
  ((⌊x * 100 + 1/2⌋ : ℤ) : α) / 100

/-- Lookup in an ordered association list; models JS `Map.prototype.get`. -/
def lookupKey {κ α : Type*} [DecidableEq κ] (k : κ) : List (κ × α) → Option α
  | [] => none
  | p :: rest => if p.1 = k then some p.2 else lookupKey k rest

/-- Models the JS pattern `if (!m.has(k)) m.set(k, init); f(m.get(k))`:
update the entry for `k` in place, inserting `f init` at the end when `k` is
absent (JS `Map` iterates in insertion order). -/
def upsert {κ α : Type*} [DecidableEq κ] (k : κ) (init : α) (f : α → α) :
    List (κ × α) → List (κ × α)
  | [] => [(k, f init)]
  | p :: rest => if p.1 = k then (p.1, f p.2) :: rest else p :: upsert k init f rest

/-!
## Department statistics profiler
`calculateStatistics` from `src/services/bottleneckDetectionService.ts`
(lines 65–89).  The source returns `{mean, median, q1, q3, iqr, stdDev}`;
`mean`, the order statistics and `iqr` are exact rational arithmetic, while
`stdDev = Math.sqrt(variance)` is modelled by `Real.sqrt`.
-/

/-- `values.reduce((a, b) => a + b, 0) / values.length` (0 for `[]`,
matching the all-zero early return of the source). -/
def listMean (values : List ℚ) : ℚ := values.sum / values.length

/-- The local `variance` of `calculateStatistics`: population variance,
`values.reduce((sum, val) => sum + (val - mean)^2, 0) / values.length`. -/
def listVariance (values : List ℚ) : ℚ :=
  ((values.map fun v => (v - listMean values) ^ 2).sum) / values.length

/-- `[...values].sort((a, b) => a - b)`: ascending sort. -/
def sortedAsc (values : List ℚ) : List ℚ := values.insertionSort (· ≤ ·)

/-- Return record of `calculateStatistics`. -/
structure Statistics where
  mean : ℚ
  median : ℚ
  q1 : ℚ
  q3 : ℚ
  iqr : ℚ
  stdDev : ℝ

/-- `calculateStatistics` (bottleneckDetectionService.ts, lines 65–89).
`Math.floor(sorted.length / 2)`, `Math.floor(sorted.length * 0.25)` and
`Math.floor(sorted.length * 0.75)` are the natural-number divisions
`n / 2`, `n / 4` and `3 * n / 4` (0.25 and 0.75 are dyadic, so the
float products are exact). -/
noncomputable def calculateStatistics (values : List ℚ) : Statistics :=
  if values = [] then { mean := 0, median := 0, q1 := 0, q3 := 0, iqr := 0, stdDev := 0 }
  else
    let sorted := sortedAsc values
    let q1 := sorted.getD (values.length / 4) 0
    let q3 := sorted.getD (3 * values.length / 4) 0
    { mean := listMean values
      median := sorted.getD (values.length / 2) 0
      q1 := q1
      q3 := q3
      iqr := q3 - q1
      stdDev := Real.sqrt (listVariance values) }

/-!
## Journey reconstructor
`getPatientJourneys` from the patient-flow service (`src/unnamed/part_003`,
lines 409–487).  The Supabase fetch is out of scope: the rows it returns are
the `FlowLog` input list.  Timestamps are epoch milliseconds; a log is
skipped when the joined patient id, the entry time or the exit time is
missing (JS falsy test), when a department filter is active and does not
match, or when the derived duration is negative.
-/

/-- One stage of a `PatientJourney` (`src/types/flow.ts`). -/
structure Stage where
  department : String
  category : String
  entryTime : ℚ
  exitTime : ℚ
  duration : ℚ
deriving DecidableEq

/-- `PatientJourney` (`src/types/flow.ts`). -/
structure PatientJourney where
  patientId : String
  totalDuration : ℚ
  stages : List Stage
deriving DecidableEq

/-- One row of `department_flow_logs` joined with `patients(patient_id)` and
`departments(name)`; `Option` models the JS falsy checks on line 453 and the
`|| 'Unknown'` default on line 451. -/
structure FlowLog where
  patientId : Option String
  departmentName : Option String
  entryTime : Option ℚ
  exitTime : Option ℚ
deriving DecidableEq

/-- The `DEPARTMENT_CATEGORIES` lookup table (`src/unnamed/part_003`). -/
def DEPARTMENT_CATEGORIES : List (String × String) :=
  [("Emergency", "Emergency"), ("ER", "Emergency"), ("Trauma", "Emergency"),
   ("ICU", "Treatment"), ("Surgery", "Treatment"), ("Operating Room", "Treatment"),
   ("Cardiology", "Treatment"), ("Neurology", "Treatment"), ("Oncology", "Treatment"),
   ("Orthopedics", "Treatment"), ("Orthopedic Surgery", "Treatment"),
   ("Pediatrics", "Treatment"), ("Internal Medicine", "Treatment"),
   ("Pulmonology", "Treatment"), ("Rheumatology", "Treatment"),
   ("Nephrology", "Treatment"), ("Psychiatry", "Treatment"), ("Urology", "Treatment"),
   ("Gastroenterology", "Treatment"), ("Dermatology", "Treatment"),
   ("Cardiothoracic Surgery", "Treatment"), ("Neurosurgery", "Treatment"),
   ("Ent", "Treatment"), ("Gynecology", "Treatment"), ("Obstetrics", "Treatment"),
   ("Ophthalmology", "Treatment"), ("Burn Unit", "Treatment"),
   ("Infectious Diseases", "Treatment"), ("Dialysis", "Treatment"),
   ("Radiology", "Diagnostics"), ("Laboratory", "Diagnostics"),
   ("Imaging", "Diagnostics"), ("Pathology", "Diagnostics"),
   ("Recovery", "Recovery"), ("Post-Op", "Recovery"), ("Rehabilitation", "Recovery"),
   ("Discharge", "Discharge"), ("Discharge Planning", "Discharge"),
   ("Pharmacy", "Discharge"), ("General", "Treatment"), ("Inpatient", "Treatment"),
   ("Outpatient", "Treatment")]

/-- `categorizeDepartment`: table lookup with default `'Treatment'`. -/
def categorizeDepartment (deptName : String) : String :=
  (lookupKey deptName DEPARTMENT_CATEGORIES).getD "Treatment"

/-- Stage comparator of `journey.stages.sort((a, b) => entry(a) - entry(b))`. -/
def stageLE (a b : Stage) : Prop := a.entryTime ≤ b.entryTime

instance : DecidableRel stageLE := fun a b =>
  inferInstanceAs (Decidable (a.entryTime ≤ b.entryTime))

instance : IsTotal Stage stageLE := ⟨fun a b => le_total a.entryTime b.entryTime⟩

instance : IsTrans Stage stageLE := ⟨fun _ _ _ h1 h2 => le_trans h1 h2⟩

/-- The body of the `for (const log of flowLogs)` loop (lines 449–479):
skip on missing patient id / entry / exit, on a non-matching department
filter, and on negative derived duration; otherwise push a stage onto the
patient's journey (creating it on first use). -/
def addLog (deptFilter : Option String) (m : List (String × PatientJourney))
    (log : FlowLog) : List (String × PatientJourney) :=
  let deptName := log.departmentName.getD "Unknown"
  match log.patientId, log.entryTime, log.exitTime with
  | some pid, some entry, some exitT =>
    -- JS `!patientId` is also true for the empty string
    if pid = "" then m
    else if deptFilter.isSome ∧ deptFilter ≠ some deptName then m
    else
      let duration := (exitT - entry) / 60000
      if duration < 0 then m
      else
        upsert pid { patientId := pid, totalDuration := 0, stages := [] }
          (fun j => { j with stages := j.stages ++
            [{ department := deptName, category := categorizeDepartment deptName,
               entryTime := entry, exitTime := exitT, duration := duration }] }) m
  | _, _, _ => m

/-- The final pass of `getPatientJourneys` (lines 481–484): sort the stages
by entry time and set the total duration to the sum of stage durations. -/
def finalizeJourney (j : PatientJourney) : PatientJourney :=
  let sorted := j.stages.insertionSort stageLE
  { j with stages := sorted, totalDuration := (sorted.map (·.duration)).sum }

/-- `getPatientJourneys` (lines 409–487) with the database fetch and filter
construction abstracted into the `logs` input and the `deptFilter`
parameter (the in-memory `filters?.department` check of line 455). -/
def getPatientJourneys (deptFilter : Option String) (logs : List FlowLog) :
    List PatientJourney :=
  (logs.foldl (addLog deptFilter) []).map fun p => finalizeJourney p.2

/-!
## Bottleneck classifier
`analyzeDepartmentFlows` / `detectBottlenecks` from
`src/services/bottleneckDetectionService.ts` (lines 103–296).  The model is
faithful on the inputs the service actually receives: journeys produced by
`getPatientJourneys`, whose stage durations are all nonnegative (negative
records are dropped there), which is the `NonnegDurations` hypothesis of the
theorems below.  The narrative `generateExplanations` strings are
presentation text (spec §4.3 allows simplifying them) and are omitted from
the record, as is the `processingVariance` field, which the source writes
but never reads, and the unused `getDepartmentDelays` call on line 153.
-/

/-- `DepartmentAnalysis` (lines 55–63, without the write-only
`processingVariance`). -/
structure DepartmentAnalysis where
  name : String
  times : List ℚ
  patientVolume : ℕ
  downstreamDelays : List (String × ℚ)
  expectedTime : ℚ
  actualTime : ℚ

/-- `downstreamDelays.set(dept, (downstreamDelays.get(dept) || 0) + waitTime)`
(lines 133–134). -/
def upsertAdd (k : String) (w : ℚ) (m : List (String × ℚ)) : List (String × ℚ) :=
  upsert k 0 (fun d => d + w) m

/-- The per-stage update of `analyzeDepartmentFlows` (lines 123–136):
push the stage duration, bump the volume and, when a next stage exists and
the inter-stage wait is positive, accumulate the wait as a downstream delay
toward the next department. -/
def applyStage (stage : Stage) (next? : Option Stage)
    (a0 : DepartmentAnalysis) : DepartmentAnalysis :=
  let a := { a0 with times := a0.times ++ [stage.duration],
                     patientVolume := a0.patientVolume + 1 }
  match next? with
  | none => a
  | some next =>
    let waitTime := (next.entryTime - stage.exitTime) / 60000
    if waitTime > 0 then
      { a with downstreamDelays := upsertAdd next.department waitTime a.downstreamDelays }
    else a

/-- Body of the stage loop of `analyzeDepartmentFlows` (lines 107–137),
creating the department entry on first sight (lines 111–121). -/
def recordStage (m : List (String × DepartmentAnalysis)) (stage : Stage)
    (next? : Option Stage) : List (String × DepartmentAnalysis) :=
  upsert stage.department
    { name := stage.department, times := [], patientVolume := 0,
      downstreamDelays := [], expectedTime := 0, actualTime := 0 }
    (applyStage stage next?) m

/-- The inner `for (let i = 0; i < journey.stages.length; i++)` loop:
each stage is processed together with its successor `stages[i + 1]`. -/
def addJourneyStages (m : List (String × DepartmentAnalysis)) :
    List Stage → List (String × DepartmentAnalysis)
  | [] => m
  | s :: rest => addJourneyStages (recordStage m s rest.head?) rest

/-- The first pass of `analyzeDepartmentFlows` (lines 104–138). -/
def analyzeFlowsPhase1 (journeys : List PatientJourney) :
    List (String × DepartmentAnalysis) :=
  journeys.foldl (fun m j => addJourneyStages m j.stages) []

/-- The second pass (lines 141–146): `expectedTime` is the department
median, `actualTime` the department mean. -/
noncomputable def setAnalysisStats (a : DepartmentAnalysis) : DepartmentAnalysis :=
  { a with expectedTime := (calculateStatistics a.times).median,
           actualTime := (calculateStatistics a.times).mean }

/-- `analyzeDepartmentFlows` (lines 103–149). -/
noncomputable def analyzeDepartmentFlows (journeys : List PatientJourney) :
    List (String × DepartmentAnalysis) :=
  (analyzeFlowsPhase1 journeys).map fun p => (p.1, setAnalysisStats p.2)

/-- `calculateZScore` (lines 91–94). -/
noncomputable def calculateZScore (value mean stdDev : ℝ) : ℝ :=
  if stdDev = 0 then 0 else (value - mean) / stdDev

/-- `calculateIQRPosition` (lines 96–101). -/
def calculateIQRPosition (value q1 q3 iqr : ℚ) : ℚ :=
  if iqr = 0 then 0
  else if value < q1 then (q1 - value) / iqr
  else if value > q3 then (value - q3) / iqr
  else 0

/-- `globalStats.stdDev > 0 ? deptStats.stdDev / globalStats.stdDev : 1`
(line 186). -/
noncomputable def varianceRatioOf (deptStd globalStd : ℝ) : ℝ :=
  if globalStd > 0 then deptStd / globalStd else 1

/-- `analysis.expectedTime > 0 ? ((actual - expected) / expected) * 100 : 0`
(lines 189–191). -/
def timeDeviationOf (actual expected : ℚ) : ℚ :=
  if expected > 0 then (actual - expected) / expected * 100 else 0

/-- `downstreamDelays.size > 0 ? totalDownstreamDelay / size : 0`
(lines 204–206). -/
def avgDownstreamDelayOf (a : DepartmentAnalysis) : ℚ :=
  if a.downstreamDelays.length > 0 then
    (a.downstreamDelays.map (·.2)).sum / a.downstreamDelays.length
  else 0

/-- `Math.min((avgDownstreamDelay / analysis.actualTime) * 100, 100)`
(line 208).  The source has **no** zero guard on this division.  When
`actualTime = 0` and the average downstream delay is positive, JS produces
`Infinity`, which `Math.min` clamps to 100; when both are 0 JS produces
`NaN`, which fails every later `>` comparison exactly as the value 0 does
(and a zero-mean unit is never classified, see `C7`), so that branch is
modelled as 0. -/
def delayPropagationScoreOf (avgDownstreamDelay actualTime : ℚ) : ℚ :=
  if actualTime = 0 then (if 0 < avgDownstreamDelay then 100 else 0)
  else min (avgDownstreamDelay / actualTime * 100) 100

/-- `volumeStats.mean > 0 ? (patientVolume / volumeStats.mean) * 100 : 0`
(lines 211–213). -/
def volumePercentileOf (patientVolume : ℕ) (volumeMean : ℚ) : ℚ :=
  if volumeMean > 0 then (patientVolume : ℚ) / volumeMean * 100 else 0

/-- `deptStats.stdDev > deptStats.mean * 0.5 ? deptStats.stdDev / deptStats.mean : 0`
(lines 219–221).  With nonnegative durations the guard can only hold when
the department mean is positive, so the Lean `x / 0 = 0` convention in the
division is never exercised on the faithful domain. -/
noncomputable def congestionIndicatorOf (deptStd : ℝ) (deptMean : ℚ) : ℝ :=
  if deptStd > (deptMean : ℝ) * 0.5 then deptStd / (deptMean : ℝ) else 0

/-- `loadLevel` (lines 235–238). -/
inductive LoadLevel
  | low
  | moderate
  | high
deriving DecidableEq

def loadLevelOf (volumePercentile : ℚ) : LoadLevel :=
  if volumePercentile < 60 then .low
  else if volumePercentile < 100 then .moderate
  else .high

inductive BottleneckType
  | invisible
  | obvious
  | emerging
deriving DecidableEq

section ClassifierClassical

open scoped Classical

/-- The ordered first-match classification (lines 240–250); `none` models
the `continue` ("not a significant bottleneck"). -/
noncomputable def bottleneckTypeOf (loadLevel : LoadLevel)
    (delayPropagationScore timeDeviation : ℚ)
    (varianceRatio congestionIndicator : ℝ) : Option BottleneckType :=
  if loadLevel = .moderate ∧ delayPropagationScore > 30 then some .invisible
  else if loadLevel = .high ∧ timeDeviation > 50 then some .obvious
  else if varianceRatio > 1.3 ∧ congestionIndicator > 0.8 then some .emerging
  else none

/-- `BottleneckDetection` (lines 5–38) without the three narrative
explanation fields (presentation text, omitted). -/
structure BottleneckDetection where
  departmentName : String
  rank : ℕ
  bottleneckType : BottleneckType
  expectedTime : ℚ
  actualTime : ℚ
  timeDeviation : ℚ
  zScore : ℝ
  iqrPosition : ℚ
  varianceRatio : ℝ
  patientImpactScore : ℚ
  delayPropagationScore : ℚ
  resourceStrainScore : ℝ
  overallImpactScore : ℝ
  patientsAffected : ℕ
  downstreamDepartments : List String
  loadLevel : LoadLevel
  congestionIndicator : ℝ

/-- The body of the department loop of `detectBottlenecks` (lines 173–289);
`none` models both `continue` statements (fewer than 3 samples, line 175,
and "not a significant bottleneck", line 249). -/
noncomputable def buildBottleneck (globalStats volumeStats : Statistics)
    (deptName : String) (analysis : DepartmentAnalysis) :
    Option BottleneckDetection :=
  if analysis.times.length < 3 then none
  else
    let deptStats := calculateStatistics analysis.times
    let zScore := calculateZScore analysis.actualTime globalStats.mean globalStats.stdDev
    let iqrPosition :=
      calculateIQRPosition analysis.actualTime globalStats.q1 globalStats.q3 globalStats.iqr
    let varianceRatio := varianceRatioOf deptStats.stdDev globalStats.stdDev
    let timeDeviation := timeDeviationOf analysis.actualTime analysis.expectedTime
    let downstreamDepts :=
      (analysis.downstreamDelays.filter fun p => p.2 > deptStats.mean * 0.2).map (·.1)
    let delayPropagationScore :=
      delayPropagationScoreOf (avgDownstreamDelayOf analysis) analysis.actualTime
    let volumePercentile := volumePercentileOf analysis.patientVolume volumeStats.mean
    let timeImpact := |timeDeviation|
    let patientImpactScore := volumePercentile * 0.4 + timeImpact * 0.6
    let congestionIndicator := congestionIndicatorOf deptStats.stdDev deptStats.mean
    let resourceStrainScore :=
      min (congestionIndicator * 30 + varianceRatio * 40 + |zScore| * 30) 100
    let overallImpactScore :=
      (patientImpactScore : ℝ) * 0.35 + (delayPropagationScore : ℝ) * 0.35 +
        resourceStrainScore * 0.3
    let loadLevel := loadLevelOf volumePercentile
    (bottleneckTypeOf loadLevel delayPropagationScore timeDeviation
        varianceRatio congestionIndicator).map fun ty =>
      { departmentName := deptName
        rank := 0
        bottleneckType := ty
        expectedTime := jsRound analysis.expectedTime
        actualTime := jsRound analysis.actualTime
        timeDeviation := jsRound1 timeDeviation
        zScore := jsRound2 zScore
        iqrPosition := jsRound2 iqrPosition
        varianceRatio := jsRound2 varianceRatio
        patientImpactScore := jsRound1 patientImpactScore
        delayPropagationScore := jsRound1 delayPropagationScore
        resourceStrainScore := jsRound1 resourceStrainScore
        overallImpactScore := jsRound1 overallImpactScore
        patientsAffected := analysis.patientVolume
        downstreamDepartments := downstreamDepts
        loadLevel := loadLevel
        congestionIndicator := jsRound2 congestionIndicator }


/-- Comparator of `bottlenecks.sort((a, b) => b.overallImpactScore - a.overallImpactScore)`
(line 292): descending by overall impact score. -/
def scoreGE (a b : BottleneckDetection) : Prop :=
  b.overallImpactScore ≤ a.overallImpactScore

noncomputable instance : DecidableRel scoreGE := fun _ _ => Classical.propDecidable _

instance : IsTotal BottleneckDetection scoreGE :=
  ⟨fun a b => le_total b.overallImpactScore a.overallImpactScore⟩

instance : IsTrans BottleneckDetection scoreGE :=
  ⟨fun _ _ _ h1 h2 => le_trans h2 h1⟩

noncomputable def sortByOverallDesc (l : List BottleneckDetection) :
    List BottleneckDetection :=
  l.insertionSort scoreGE

/-- `bottlenecks.forEach((b, idx) => b.rank = idx + 1)` (line 293), started
at 1. -/
def assignRanks : ℕ → List BottleneckDetection → List BottleneckDetection
  | _, [] => []
  | n, b :: rest => { b with rank := n } :: assignRanks (n + 1) rest

/-- Global duration statistics of `detectBottlenecks` (lines 160–168):
every department's samples pooled in iteration order. -/
noncomputable def globalStatsOf (journeys : List PatientJourney) : Statistics :=
  calculateStatistics (((analyzeDepartmentFlows journeys).map fun p => p.2.times).flatten)

/-- Volume statistics of `detectBottlenecks` (lines 165–169). -/
noncomputable def volumeStatsOf (journeys : List PatientJourney) : Statistics :=
  calculateStatistics ((analyzeDepartmentFlows journeys).map fun p => (p.2.patientVolume : ℚ))

/-- `detectBottlenecks` (lines 151–296), with the journeys of
`getPatientJourneys` as input. -/
noncomputable def detectBottlenecks (journeys : List PatientJourney) :
    List BottleneckDetection :=
  match analyzeDepartmentFlows journeys with
  | [] => []
  | _ :: _ =>
    let deptAnalysis := analyzeDepartmentFlows journeys
    let bottlenecks := deptAnalysis.filterMap fun p =>
      buildBottleneck (globalStatsOf journeys) (volumeStatsOf journeys) p.1 p.2
    assignRanks 1 (sortByOverallDesc bottlenecks)

end ClassifierClassical

/-- Nonnegativity of every stage duration: guaranteed for the actual input
of `detectBottlenecks` by the negative-duration filter of
`getPatientJourneys` (see `C9_journey_durations`). -/
def NonnegDurations (journeys : List PatientJourney) : Prop :=
  ∀ j ∈ journeys, ∀ s ∈ j.stages, 0 ≤ s.duration

/-- Concrete input used by witnesses: one patient visiting "ER" three times
with one-minute stays. -/
def sampleJourneys : List PatientJourney :=
  [{ patientId := "p1", totalDuration := 3, stages :=
    [{ department := "ER", category := "Emergency",
       entryTime := 0, exitTime := 60000, duration := 1 },
     { department := "ER", category := "Emergency",
       entryTime := 60000, exitTime := 120000, duration := 1 },
     { department := "ER", category := "Emergency",
       entryTime := 120000, exitTime := 180000, duration := 1 }] }]

/-- Stage-sample count of a department across a list of journeys. -/
def countStages (journeys : List PatientJourney) (dept : String) : ℕ :=
  (journeys.map fun j => (j.stages.filter fun s => s.department = dept).length).sum

/-- Length of the recorded `times` list of a department in the analysis map. -/
def timesLenAt (m : List (String × DepartmentAnalysis)) (dept : String) : ℕ :=
  ((lookupKey dept m).map fun a => a.times.length).getD 0

/-!
## Readmission risk predictor
`predictReadmissionRisk` from `src/services/dataService.ts` (lines 447–565)
with its helpers (lines 410–445).  Dates are epoch milliseconds.  Omitted
as presentation text: the formatted `description` strings of the factors,
the `preventionRecommendations` catalogue and the estimated readmission
date (which falls back on the wall clock `new Date()` when the discharge
date is missing); the claims do not touch them.  Record fields the scoring
never reads (age, gender, diagnosis, severity, admission type) are also
omitted. -/

/-- `JourneyStep` (fields read by the risk scoring). -/
structure JourneyStep where
  departmentId : String
  department : String
  waitTimeMinutes : ℚ
deriving DecidableEq

/-- `PatientRecord` (fields read by the risk scoring and the bottleneck
prediction). -/
structure PatientRecord where
  id : String
  patientId : String
  admissionDate : Option ℚ
  dischargeDate : Option ℚ
  currentDepartment : Option String
  journeySteps : Option (List JourneyStep)
deriving DecidableEq

/-- `calculateLengthOfStay` (lines 410–414): days. -/
def calculateLengthOfStay (admissionDate dischargeDate : ℚ) : ℚ :=
  (dischargeDate - admissionDate) / 86400000

/-- `calculateOperationalDelayScore` (lines 416–429). -/
def calculateOperationalDelayScore (record : PatientRecord) : ℚ :=
  match record.journeySteps with
  | none => 0
  | some [] => 0
  | some steps =>
    let avgWaitPerStep := (steps.map (·.waitTimeMinutes)).sum / steps.length
    if avgWaitPerStep > 120 then 30
    else if avgWaitPerStep > 90 then 20
    else if avgWaitPerStep > 60 then 10
    else 0

/-- `identifyHighRiskDepartments` (lines 431–445): departments with a step
wait above 120 minutes, deduplicated in first-seen order. -/
def identifyHighRiskDepartments (record : PatientRecord) : List String :=
  match record.journeySteps with
  | none => []
  | some steps =>
    steps.foldl (fun acc step =>
      if step.waitTimeMinutes > 120 ∧ step.departmentId ∉ acc then
        acc ++ [step.departmentId]
      else acc) []

/-- JS `Date.prototype.getDay` on an epoch-millisecond timestamp
(0 = Sunday … 6 = Saturday; epoch day 0, 1970-01-01, was a Thursday).
The source evaluates it in local time; the model uses UTC. -/
def jsGetDay (ms : ℚ) : ℤ := (⌊ms / 86400000⌋ + 4) % 7

/-- `ReadmissionFactor` (name and weight; description text omitted). -/
structure ReadmissionFactor where
  factor : String
  impact : ℚ
deriving DecidableEq

inductive RiskLevel
  | low
  | medium
  | high
  | critical
deriving DecidableEq

/-- `ReadmissionRisk` (lines 379–390), with `operationalImpact` flattened
into its two fields. -/
structure ReadmissionRisk where
  patientId : String
  riskScore : ℚ
  riskLevel : RiskLevel
  contributingFactors : List ReadmissionFactor
  delayInfluence : ℚ
  departmentRisk : List String

/-- Comparator of `factors.sort((a, b) => b.impact - a.impact)` (line 557):
descending by impact. -/
def factorGE (a b : ReadmissionFactor) : Prop := b.impact ≤ a.impact

instance : DecidableRel factorGE := fun a b =>
  inferInstanceAs (Decidable (b.impact ≤ a.impact))

instance : IsTotal ReadmissionFactor factorGE :=
  ⟨fun a b => le_total b.impact a.impact⟩

instance : IsTrans ReadmissionFactor factorGE :=
  ⟨fun _ _ _ h1 h2 => le_trans h2 h1⟩

/-- `predictReadmissionRisk` (lines 447–565).  Each weighted factor is
appended exactly when the source pushes it, and the total risk score is the
sum of the pushed impacts (the source accumulates the same amounts into
`totalRiskScore` at each push). -/
def predictReadmissionRisk (record : PatientRecord)
    (historicalRecords : List PatientRecord) : ReadmissionRisk :=
  let lengthOfStay : ℚ :=
    match record.admissionDate, record.dischargeDate with
    | some a, some d => calculateLengthOfStay a d
    | _, _ => 0
  let losFactors : List ReadmissionFactor :=
    if lengthOfStay > 0 then
      if lengthOfStay < 2 then [{ factor := "Short Length of Stay", impact := 25 }]
      else if lengthOfStay > 14 then
        [{ factor := "Extended Length of Stay", impact := 20 }]
      else []
    else []
  let operationalDelayScore := calculateOperationalDelayScore record
  let delayFactors : List ReadmissionFactor :=
    if operationalDelayScore > 0 then
      [{ factor := "Operational Delays", impact := operationalDelayScore }]
    else []
  let transferFactors : List ReadmissionFactor :=
    match record.journeySteps with
    | some steps =>
      if steps.length > 5 then
        [{ factor := "Multiple Department Transfers", impact := 15 }]
      else []
    | none => []
  let patientHistory := historicalRecords.filter fun r =>
    decide (r.patientId = record.patientId ∧ r.id ≠ record.id)
  let recentVisits := patientHistory.filter fun r =>
    match r.admissionDate, record.admissionDate with
    | some ra, some ca =>
      decide (0 < (ca - ra) / 86400000 ∧ (ca - ra) / 86400000 < 90)
    | _, _ => false
  let historyFactors : List ReadmissionFactor :=
    if patientHistory.length > 0 ∧ recentVisits.length > 0 then
      [{ factor := "Recent Hospital Visits",
         impact := min 30 ((recentVisits.length : ℚ) * 15) }]
    else []
  -- lines 524–535: the source keys the "Weekend Discharge" factor on the
  -- day of week of `record.admissionDate`, not of the discharge date
  let weekendFactors : List ReadmissionFactor :=
    match record.admissionDate with
    | some a =>
      if jsGetDay a = 5 ∨ jsGetDay a = 6 then
        [{ factor := "Weekend Discharge", impact := 10 }]
      else []
    | none => []
  let factors : List ReadmissionFactor := losFactors ++ delayFactors ++
    transferFactors ++ historyFactors ++ weekendFactors
  let totalRiskScore : ℚ := (factors.map (·.impact)).sum
  let riskLevel :=
    if totalRiskScore ≥ 70 then RiskLevel.critical
    else if totalRiskScore ≥ 50 then RiskLevel.high
    else if totalRiskScore ≥ 30 then RiskLevel.medium
    else RiskLevel.low
  { patientId := record.patientId
    riskScore := totalRiskScore
    riskLevel := riskLevel
    contributingFactors := factors.insertionSort factorGE
    delayInfluence := operationalDelayScore
    departmentRisk := identifyHighRiskDepartments record }

/-- The failing input for C4: admitted Friday 1970-01-02, discharged Monday
1970-01-05 (LOS 3 days), one journey step with no wait, no history. -/
def c4Record : PatientRecord :=
  { id := "r1", patientId := "p1",
    admissionDate := some 86400000,
    dischargeDate := some 345600000,
    currentDepartment := none,
    journeySteps := some [] }

/-!
## Delay propagation analyzer
`getDelayPropagationMap` (`src/services/bottleneckDetectionService.ts`,
lines 389–434).  The source keys its aggregation map by the string
`src + '→' + tgt` and splits it back at output time; the model keys by the
pair directly (equivalent as long as department names do not contain the
separator character). -/

/-- `DelayPropagation` (lines 40–46). -/
structure DelayPropagation where
  sourceDepartment : String
  targetDepartment : String
  avgDelayTransferred : ℚ
  patientsAffected : ℕ
  propagationStrength : ℚ
deriving DecidableEq

/-- One cell of the aggregation map: `{ totalDelay, count }` (lines 391–394). -/
structure DelayTally where
  totalDelay : ℚ
  count : ℕ
deriving DecidableEq

/-- Body of the consecutive-pair loop (lines 397–414): count the wait iff it
exceeds 5 minutes. -/
def collectStagePair (m : List ((String × String) × DelayTally))
    (current next : Stage) : List ((String × String) × DelayTally) :=
  let waitTime := (next.entryTime - current.exitTime) / 60000
  if waitTime > 5 then
    upsert (current.department, next.department) { totalDelay := 0, count := 0 }
      (fun t => { totalDelay := t.totalDelay + waitTime, count := t.count + 1 }) m
  else m

def collectStep (m : List ((String × String) × DelayTally)) (s : Stage)
    (next? : Option Stage) : List ((String × String) × DelayTally) :=
  match next? with
  | some next => collectStagePair m s next
  | none => m

/-- The `for (let i = 0; i < journey.stages.length - 1; i++)` loop. -/
def collectJourneyStages (m : List ((String × String) × DelayTally)) :
    List Stage → List ((String × String) × DelayTally)
  | [] => m
  | s :: rest => collectJourneyStages (collectStep m s rest.head?) rest

/-- Comparator of the final `sort((a, b) => b.propagationStrength - a.propagationStrength)`
(line 433). -/
def strengthGE (a b : DelayPropagation) : Prop :=
  b.propagationStrength ≤ a.propagationStrength

instance : DecidableRel strengthGE := fun a b =>
  inferInstanceAs (Decidable (b.propagationStrength ≤ a.propagationStrength))

instance : IsTotal DelayPropagation strengthGE :=
  ⟨fun a b => le_total b.propagationStrength a.propagationStrength⟩

instance : IsTrans DelayPropagation strengthGE :=
  ⟨fun _ _ _ h1 h2 => le_trans h2 h1⟩

/-- `getDelayPropagationMap` (lines 389–434). -/
def getDelayPropagationMap (journeys : List PatientJourney) :
    List DelayPropagation :=
  let propagationMap :=
    journeys.foldl (fun m j => collectJourneyStages m j.stages) []
  let propagations := propagationMap.map fun p =>
    let avgDelay := p.2.totalDelay / (p.2.count : ℚ)
    let propagationStrength := min (avgDelay / 60 * 100) 100
    { sourceDepartment := p.1.1
      targetDepartment := p.1.2
      avgDelayTransferred := jsRound avgDelay
      patientsAffected := p.2.count
      propagationStrength := jsRound1 propagationStrength }
  propagations.insertionSort strengthGE

/-- The wait one stage-successor pair is specified to contribute to the
`(src, tgt)` delay edge: its wait when the pair runs from `src` to `tgt`
and the wait strictly exceeds 5 minutes, nothing otherwise. -/
def pairWait (src tgt : String) (s : Stage) (next? : Option Stage) : List ℚ :=
  match next? with
  | some next =>
    if s.department = src ∧ next.department = tgt ∧
        (next.entryTime - s.exitTime) / 60000 > 5 then
      [(next.entryTime - s.exitTime) / 60000]
    else []
  | none => []

/-- The waits the analyzer is specified to count for one journey's stage
sequence and one (source, target) pair: waits of consecutive pairs from
`src` to `tgt` strictly above 5 minutes, in order. -/
def journeyPairWaits (src tgt : String) : List Stage → List ℚ
  | [] => []
  | s :: rest => pairWait src tgt s rest.head? ++ journeyPairWaits src tgt rest

/-- All counted waits for a (source, target) pair across all journeys. -/
def pairWaits (journeys : List PatientJourney) (src tgt : String) : List ℚ :=
  (journeys.map fun j => journeyPairWaits src tgt j.stages).flatten

/-- Folding a batch of waits into an aggregation cell. -/
def addTally (o : Option DelayTally) (ws : List ℚ) : Option DelayTally :=
  match o, ws with
  | o, [] => o
  | none, ws => some { totalDelay := ws.sum, count := ws.length }
  | some t, ws => some { totalDelay := t.totalDelay + ws.sum, count := t.count + ws.length }

/-!
## Intervention simulator
`simulateIntervention` and its projections (`src/unnamed/part_003`,
lines 106–285).  The Supabase reads (`calculateBaselineMetrics` and the
department row supplying the staff and bed counts) are out of scope:
`baseline`, `currentStaff` and `currentBeds` are parameters.  The
`currentStaff`/`currentBeds` parameters of `calculateCostBenefit` are
unused in the source body and omitted here.  The divisions by baseline
quantities inside the three projections mirror the source, which assumes
positive baselines (a zero baseline would give `NaN` in JS). -/

/-- `SimulationIntervention` (lines 6–10); `type` is a string at runtime —
the union type does not exist after compilation, which is exactly the
invalid-descriptor situation the spec's error-handling section discusses. -/
structure SimulationIntervention where
  type : String
  departmentName : String
  value : ℚ
deriving DecidableEq

/-- `SimulationMetrics` (lines 30–36). -/
structure SimulationMetrics where
  averageLOS : ℚ
  bedUtilization : ℚ
  avgProcessingTime : ℚ
  readmissionRisk : ℚ
  throughput : ℚ
deriving DecidableEq

/-- `projectStaffIntervention` (lines 106–134). -/
def projectStaffIntervention (baseline : SimulationMetrics)
    (staffIncrease currentStaff : ℚ) : SimulationMetrics :=
  let staffMultiplier := currentStaff / (currentStaff + staffIncrease)
  let newProcessingTime := baseline.avgProcessingTime * staffMultiplier
  let processingReduction := baseline.avgProcessingTime - newProcessingTime
  let losReduction := processingReduction / 60 * 0.8
  let newLOS := max 0.1 (baseline.averageLOS - losReduction)
  let bedUtilizationImprovement := losReduction * 5
  let newBedUtilization := max 0 (baseline.bedUtilization - bedUtilizationImprovement)
  let readmissionReduction :=
    processingReduction / baseline.avgProcessingTime * baseline.readmissionRisk * 0.3
  let newReadmissionRisk := max 0 (baseline.readmissionRisk - readmissionReduction)
  let throughputIncrease :=
    ((⌊baseline.throughput * (1 + staffIncrease / currentStaff * 0.5)⌋ : ℤ) : ℚ)
  { averageLOS := jsRound1 newLOS
    bedUtilization := jsRound1 newBedUtilization
    avgProcessingTime := jsRound newProcessingTime
    readmissionRisk := jsRound1 newReadmissionRisk
    throughput := throughputIncrease }

/-- `projectBedsIntervention` (lines 136–164). -/
def projectBedsIntervention (baseline : SimulationMetrics)
    (bedIncrease currentBeds : ℚ) : SimulationMetrics :=
  let newBedCapacity := currentBeds + bedIncrease
  let capacityIncrease := bedIncrease / currentBeds
  let newBedUtilization := baseline.bedUtilization * (currentBeds / newBedCapacity)
  let waitTimeReduction := min (capacityIncrease * 0.3) 0.5
  let losReduction := baseline.averageLOS * waitTimeReduction * 0.4
  let newLOS := max 0.1 (baseline.averageLOS - losReduction)
  let newProcessingTime := baseline.avgProcessingTime * (1 - waitTimeReduction * 0.2)
  let readmissionReduction := waitTimeReduction * baseline.readmissionRisk * 0.2
  let newReadmissionRisk := max 0 (baseline.readmissionRisk - readmissionReduction)
  let throughputIncrease :=
    ((⌊baseline.throughput * (1 + capacityIncrease * 0.3)⌋ : ℤ) : ℚ)
  { averageLOS := jsRound1 newLOS
    bedUtilization := jsRound1 newBedUtilization
    avgProcessingTime := jsRound newProcessingTime
    readmissionRisk := jsRound1 newReadmissionRisk
    throughput := throughputIncrease }

/-- `projectProcessingTimeIntervention` (lines 166–191). -/
def projectProcessingTimeIntervention (baseline : SimulationMetrics)
    (timeReduction : ℚ) : SimulationMetrics :=
  let newProcessingTime := max 5 (baseline.avgProcessingTime - timeReduction)
  let reductionRatio := timeReduction / baseline.avgProcessingTime
  let losReduction := baseline.averageLOS * reductionRatio * 0.6
  let newLOS := max 0.1 (baseline.averageLOS - losReduction)
  let bedUtilizationImprovement := reductionRatio * baseline.bedUtilization * 0.4
  let newBedUtilization := max 0 (baseline.bedUtilization - bedUtilizationImprovement)
  let readmissionReduction := reductionRatio * baseline.readmissionRisk * 0.4
  let newReadmissionRisk := max 0 (baseline.readmissionRisk - readmissionReduction)
  let throughputIncrease :=
    ((⌊baseline.throughput * (1 + reductionRatio * 0.7)⌋ : ℤ) : ℚ)
  { averageLOS := jsRound1 newLOS
    bedUtilization := jsRound1 newBedUtilization
    avgProcessingTime := jsRound newProcessingTime
    readmissionRisk := jsRound1 newReadmissionRisk
    throughput := throughputIncrease }

structure SimulationImprovements where
  losReduction : ℚ
  losReductionPercent : ℚ
  bedUtilizationChange : ℚ
  readmissionRiskReduction : ℚ
  patientsImpacted : ℚ
deriving DecidableEq

structure CostBenefit where
  estimatedCost : ℚ
  impactScore : ℚ
  roi : ℚ
deriving DecidableEq

/-- `calculateCostBenefit` (lines 193–227): the `switch` has **no**
`default`, so an unknown intervention type leaves `estimatedCost = 0`. -/
def calculateCostBenefit (intervention : SimulationIntervention)
    (improvements : SimulationImprovements) : CostBenefit :=
  let estimatedCost : ℚ :=
    if intervention.type = "staff" then intervention.value * 75000
    else if intervention.type = "beds" then intervention.value * 50000
    else if intervention.type = "processing_time" then intervention.value * 10000
    else 0
  let impactScore := improvements.losReductionPercent * 0.4 +
    |improvements.bedUtilizationChange| * 0.3 +
    improvements.readmissionRiskReduction * 0.3
  let roi := if estimatedCost > 0 then
    impactScore * improvements.patientsImpacted * 1000 / estimatedCost else 0
  { estimatedCost := estimatedCost
    impactScore := jsRound1 impactScore
    roi := jsRound2 roi }

/-- `SimulationResult` (lines 12–28). -/
structure SimulationResult where
  intervention : SimulationIntervention
  baseline : SimulationMetrics
  projected : SimulationMetrics
  improvements : SimulationImprovements
  costBenefit : CostBenefit
deriving DecidableEq

/-- `simulateIntervention` (lines 229–285), with the fetched baseline and
department numbers as parameters.  The `switch` on the intervention type
(lines 246–258) has `default: projected = baseline;` — an unknown type is
**not** rejected, it silently projects no change. -/
def simulateIntervention (intervention : SimulationIntervention)
    (baseline : SimulationMetrics) (currentStaff currentBeds : ℚ) :
    SimulationResult :=
  let projected :=
    if intervention.type = "staff" then
      projectStaffIntervention baseline intervention.value currentStaff
    else if intervention.type = "beds" then
      projectBedsIntervention baseline intervention.value currentBeds
    else if intervention.type = "processing_time" then
      projectProcessingTimeIntervention baseline intervention.value
    else baseline
  let losReduction := baseline.averageLOS - projected.averageLOS
  let losReductionPercent : ℚ :=
    if baseline.averageLOS > 0 then losReduction / baseline.averageLOS * 100 else 0
  let bedUtilizationChange := baseline.bedUtilization - projected.bedUtilization
  let readmissionRiskReduction := baseline.readmissionRisk - projected.readmissionRisk
  let improvements : SimulationImprovements :=
    { losReduction := jsRound1 losReduction
      losReductionPercent := jsRound1 losReductionPercent
      bedUtilizationChange := jsRound1 bedUtilizationChange
      readmissionRiskReduction := jsRound1 readmissionRiskReduction
      patientsImpacted := projected.throughput }
  { intervention := intervention
    baseline := baseline
    projected := projected
    improvements := improvements
    costBenefit := calculateCostBenefit intervention improvements }

/-!
## Per-unit bottleneck prediction
`predictBottlenecks` (`src/unnamed/part_004`, lines 137–242).  The
`avgWaitTime` field of the per-department metrics is initialized but never
updated or read and is omitted; `departmentId` (a string transform of the
name) and the `historicalPattern`/`recommendation` narrative strings are
presentation text and omitted — the claims concern the risk level and
probability. -/

/-- Per-department metrics accumulated by the first loop (lines 140–176). -/
structure DeptPredMetrics where
  totalPatients : ℕ
  delays : List ℚ
  peakHours : List (ℤ × ℕ)
deriving DecidableEq

/-- JS `Date.prototype.getHours` on an epoch-millisecond timestamp (UTC in
the model; the source evaluates in local time). -/
def jsGetHours (ms : ℚ) : ℤ := (⌊ms / 3600000⌋) % 24

/-- The body of the record loop of `predictBottlenecks` (lines 147–176):
records without a current department are skipped; otherwise bump the
department's patient count, bucket the admission hour, and push every
journey step wait above 60 minutes. -/
def addPredRecord (m : List (String × DeptPredMetrics))
    (record : PatientRecord) : List (String × DeptPredMetrics) :=
  match record.currentDepartment with
  | none => m
  | some dept =>
    upsert dept { totalPatients := 0, delays := [], peakHours := [] }
      (fun met =>
        let met := { met with totalPatients := met.totalPatients + 1 }
        let met :=
          match record.admissionDate with
          | some a =>
            { met with
              peakHours := upsert (jsGetHours a) 0 (fun c => c + 1) met.peakHours }
          | none => met
        match record.journeySteps with
        | some steps =>
          { met with delays := (met.delays ++
              ((steps.filter fun s => decide (s.waitTimeMinutes > 60)).map
                (·.waitTimeMinutes))) }
        | none => met) m

/-- The record loop of `predictBottlenecks` (lines 147–176). -/
def collectPredMetrics (records : List PatientRecord) :
    List (String × DeptPredMetrics) :=
  records.foldl addPredRecord []

/-- The risk-level / probability assignment (lines 191–206).  All three
frequency thresholds are **strict** (`>`), not `≥`. -/
def riskAssignOf (delayFrequency avgDelay : ℚ) : RiskLevel × ℚ :=
  if delayFrequency > 0.3 ∧ avgDelay > 120 then (RiskLevel.critical, 0.85)
  else if delayFrequency > 0.2 ∨ avgDelay > 90 then (RiskLevel.high, 0.65)
  else if delayFrequency > 0.1 ∨ avgDelay > 60 then (RiskLevel.medium, 0.40)
  else (RiskLevel.low, 0.15)

/-- Lead time in days keyed to the risk level (lines 208–210). -/
def daysUntilOf : RiskLevel → ℚ
  | RiskLevel.critical => 3
  | RiskLevel.high => 7
  | RiskLevel.medium => 14
  | RiskLevel.low => 30

/-- `BottleneckPrediction` (part_004, lines 13–22), restricted to the
non-presentation fields; `predictedDate` is epoch milliseconds. -/
structure BottleneckPrediction where
  departmentName : String
  riskLevel : RiskLevel
  predictedDate : ℚ
  probability : ℚ
  expectedImpact : ℚ
deriving DecidableEq

/-- Comparator of the final `sort((a, b) => b.probability - a.probability)`
(line 241). -/
def probGE (a b : BottleneckPrediction) : Prop := b.probability ≤ a.probability

instance : DecidableRel probGE := fun a b =>
  inferInstanceAs (Decidable (b.probability ≤ a.probability))

instance : IsTotal BottleneckPrediction probGE :=
  ⟨fun a b => le_total b.probability a.probability⟩

instance : IsTrans BottleneckPrediction probGE :=
  ⟨fun _ _ _ h1 h2 => le_trans h2 h1⟩

/-- `predictBottlenecks` (lines 137–242); `now` is the `new Date()` taken at
line 179, and the predicted date is `now` advanced by the lead-time days. -/
def predictBottlenecks (records : List PatientRecord) (now : ℚ) :
    List BottleneckPrediction :=
  let departmentMetrics := collectPredMetrics records
  let predictions := departmentMetrics.map fun p =>
    let avgDelay : ℚ :=
      if p.2.delays.length > 0 then p.2.delays.sum / p.2.delays.length else 0
    let delayFrequency : ℚ := (p.2.delays.length : ℚ) / p.2.totalPatients
    let rp := riskAssignOf delayFrequency avgDelay
    { departmentName := p.1
      riskLevel := rp.1
      predictedDate := now + daysUntilOf rp.1 * 86400000
      probability := rp.2
      expectedImpact := jsRound (avgDelay * delayFrequency) }
  predictions.insertionSort probGE

/-- The C8 input: ten records in department "ER", three of them with a
single 130-minute wait step — delay frequency exactly 0.3, average delay
130 minutes. -/
def c8Records : List PatientRecord :=
  [{ id := "r0", patientId := "r0", admissionDate := none, dischargeDate := none,
     currentDepartment := some "ER",
     journeySteps := some [{ departmentId := "d", department := "d", waitTimeMinutes := 130 }] },
   { id := "r1", patientId := "r1", admissionDate := none, dischargeDate := none,
     currentDepartment := some "ER",
     journeySteps := some [{ departmentId := "d", department := "d", waitTimeMinutes := 130 }] },
   { id := "r2", patientId := "r2", admissionDate := none, dischargeDate := none,
     currentDepartment := some "ER",
     journeySteps := some [{ departmentId := "d", department := "d", waitTimeMinutes := 130 }] },
   { id := "r3", patientId := "r3", admissionDate := none, dischargeDate := none,
     currentDepartment := some "ER", journeySteps := none },
   { id := "r4", patientId := "r4", admissionDate := none, dischargeDate := none,
     currentDepartment := some "ER", journeySteps := none },
   { id := "r5", patientId := "r5", admissionDate := none, dischargeDate := none,
     currentDepartment := some "ER", journeySteps := none },
   { id := "r6", patientId := "r6", admissionDate := none, dischargeDate := none,
     currentDepartment := some "ER", journeySteps := none },
   { id := "r7", patientId := "r7", admissionDate := none, dischargeDate := none,
     currentDepartment := some "ER", journeySteps := none },
   { id := "r8", patientId := "r8", admissionDate := none, dischargeDate := none,
     currentDepartment := some "ER", journeySteps := none },
   { id := "r9", patientId := "r9", admissionDate := none, dischargeDate := none,
     currentDepartment := some "ER", journeySteps := none }]

/-- One journey through "A" then "B" with an exit-to-entry gap of `gapMs`
milliseconds between the two stages. -/
def gapJourney (gapMs : ℚ) : List PatientJourney :=
  [{ patientId := "p1", totalDuration := 2, stages :=
    [{ department := "A", category := "Treatment",
       entryTime := 0, exitTime := 60000, duration := 1 },
     { department := "B", category := "Treatment",
       entryTime := 60000 + gapMs, exitTime := 120000 + gapMs, duration := 1 }] }]

theorem listVariance_nonneg (values : List ℚ) : 0 ≤ listVariance values := by
  have h1 : 0 ≤ ((values.map fun v => (v - listMean values) ^ 2).sum) := by
    apply List.sum_nonneg
    intro x hx
    rcases List.mem_map.1 hx with ⟨v, _, rfl⟩
    positivity
  have h2 : (0 : ℚ) ≤ values.length := by positivity
  exact div_nonneg h1 h2

theorem calculateStatistics_stdDev_sq (values : List ℚ) :
    (calculateStatistics values).stdDev ^ 2 = (listVariance values : ℝ) ∧
      0 ≤ (calculateStatistics values).stdDev := by
  unfold calculateStatistics
  by_cases h : values = []
  · subst h
    simp [listVariance, listMean]
  · simp only [h, if_false]
    constructor
    · apply Real.sq_sqrt
      exact_mod_cast listVariance_nonneg values
    · exact Real.sqrt_nonneg _

/-- **C2.** For any set of duration samples the profiler sorts ascending and
returns median = sample at index ⌊n/2⌋, Q1 = sample at index ⌊0.25n⌋,
Q3 = sample at index ⌊0.75n⌋, IQR = Q3 − Q1, mean = arithmetic mean,
variance = population variance (÷n), standard deviation = √variance, all
zeros on empty input; and for `[30, 90, 150]` it returns median = 90,
mean = 90, Q1 = 30, Q3 = 150, IQR = 120 and stdDev ≈ 49.0 (|stdDev − 49| < 0.1,
the population-variance value √2400). -/
theorem C2_statistics_profiler :
    (∀ values : List ℚ,
      (calculateStatistics values).mean = values.sum / values.length ∧
      (calculateStatistics values).median = (sortedAsc values).getD (values.length / 2) 0 ∧
      (calculateStatistics values).q1 = (sortedAsc values).getD (values.length / 4) 0 ∧
      (calculateStatistics values).q3 = (sortedAsc values).getD (3 * values.length / 4) 0 ∧
      (calculateStatistics values).iqr =
        (calculateStatistics values).q3 - (calculateStatistics values).q1 ∧
      (calculateStatistics values).stdDev ^ 2 =
        ((values.map fun v => (v - values.sum / values.length) ^ 2).sum / values.length : ℚ) ∧
      0 ≤ (calculateStatistics values).stdDev) ∧
    calculateStatistics [] = { mean := 0, median := 0, q1 := 0, q3 := 0, iqr := 0, stdDev := 0 } ∧
    (calculateStatistics [30, 90, 150]).median = 90 ∧
    (calculateStatistics [30, 90, 150]).mean = 90 ∧
    (calculateStatistics [30, 90, 150]).q1 = 30 ∧
    (calculateStatistics [30, 90, 150]).q3 = 150 ∧
    (calculateStatistics [30, 90, 150]).iqr = 120 ∧
    |(calculateStatistics [30, 90, 150]).stdDev - 49| < 1/10 := by
  have hvar : listVariance [30, 90, 150] = 2400 := by
    norm_num [listVariance, listMean]
  have hne : ([30, 90, 150] : List ℚ) ≠ [] := by simp
  refine ⟨?_, ?_, ?_, ?_, ?_, ?_, ?_, ?_⟩
  · intro values
    by_cases h : values = []
    · subst h
      refine ⟨by simp [calculateStatistics, listMean], ?_, ?_, ?_, ?_, ?_, ?_⟩ <;>
        simp [calculateStatistics, sortedAsc, listVariance, listMean]
    · refine ⟨?_, ?_, ?_, ?_, ?_, ?_, ?_⟩
      · simp [calculateStatistics, h, listMean]
      · simp [calculateStatistics, h]
      · simp [calculateStatistics, h]
      · simp [calculateStatistics, h]
      · simp [calculateStatistics, h]
      · have := (calculateStatistics_stdDev_sq values).1
        rw [this]
        norm_num [listVariance, listMean]
      · exact (calculateStatistics_stdDev_sq values).2
  · simp [calculateStatistics]
  · norm_num [calculateStatistics, hne, sortedAsc, List.insertionSort, List.orderedInsert]
  · norm_num [calculateStatistics, hne, listMean]
  · norm_num [calculateStatistics, hne, sortedAsc, List.insertionSort, List.orderedInsert]
  · norm_num [calculateStatistics, hne, sortedAsc, List.insertionSort, List.orderedInsert]
  · norm_num [calculateStatistics, hne, sortedAsc, List.insertionSort, List.orderedInsert]
  · have hsd : (calculateStatistics [30, 90, 150]).stdDev = Real.sqrt 2400 := by
      norm_num [calculateStatistics, hne, hvar]
    rw [hsd, abs_sub_lt_iff]
    constructor
    · have h1 : Real.sqrt 2400 < 491/10 := by
        rw [show (491/10 : ℝ) = Real.sqrt ((491/10)^2) by
              rw [Real.sqrt_sq (by norm_num)]]
        apply Real.sqrt_lt_sqrt (by norm_num)
        norm_num
      linarith
    · have h2 : (489/10 : ℝ) < Real.sqrt 2400 := by
        rw [show (489/10 : ℝ) = Real.sqrt ((489/10)^2) by
              rw [Real.sqrt_sq (by norm_num)]]
        apply Real.sqrt_lt_sqrt (by norm_num)
        norm_num
      linarith

theorem upsert_forall {κ α : Type*} [DecidableEq κ] {P : κ × α → Prop}
    {k : κ} {init : α} {f : α → α} {m : List (κ × α)}
    (hm : ∀ p ∈ m, P p) (hnew : P (k, f init))
    (hupd : ∀ v, (k, v) ∈ m → P (k, f v)) :
    ∀ p ∈ upsert k init f m, P p := by
  induction m with
  | nil =>
    intro p hp
    simp only [upsert, List.mem_singleton] at hp
    exact hp ▸ hnew
  | cons q rest ih =>
    intro p hp
    simp only [upsert] at hp
    by_cases hq : q.1 = k
    · rw [if_pos hq] at hp
      rcases List.mem_cons.1 hp with h | h
      · subst h
        rw [hq]
        exact hupd q.2 (by rw [← hq]; exact List.mem_cons_self _ _)
      · exact hm p (List.mem_cons_of_mem _ h)
    · rw [if_neg hq] at hp
      rcases List.mem_cons.1 hp with h | h
      · exact hm p (h ▸ List.mem_cons_self _ _)
      · exact ih (fun r hr => hm r (List.mem_cons_of_mem _ hr))
          (fun v hv => hupd v (List.mem_cons_of_mem _ hv)) p h

theorem addLog_stages_nonneg (deptFilter : Option String)
    (m : List (String × PatientJourney)) (log : FlowLog)
    (hm : ∀ p ∈ m, ∀ s ∈ p.2.stages, 0 ≤ s.duration) :
    ∀ p ∈ addLog deptFilter m log, ∀ s ∈ p.2.stages, 0 ≤ s.duration := by
  unfold addLog
  rcases log with ⟨pid?, dn?, et?, xt?⟩
  rcases pid? with _ | pid <;> rcases et? with _ | et <;> rcases xt? with _ | xt <;>
    try exact hm
  simp only
  by_cases h1 : pid = ""
  · rw [if_pos h1]; exact hm
  rw [if_neg h1]
  by_cases h2 : deptFilter.isSome ∧ deptFilter ≠ some (dn?.getD "Unknown")
  · rw [if_pos h2]; exact hm
  rw [if_neg h2]
  by_cases h3 : (xt - et) / 60000 < 0
  · rw [if_pos h3]; exact hm
  rw [if_neg h3]
  push_neg at h3
  refine upsert_forall hm ?_ ?_
  · intro s hs
    simp only [List.nil_append, List.mem_singleton] at hs
    subst hs
    exact h3
  · intro v hv s hs
    rcases List.mem_append.1 hs with h | h
    · exact hm _ hv s h
    · rcases List.mem_singleton.1 h with rfl
      exact h3

theorem foldl_addLog_stages_nonneg (deptFilter : Option String)
    (logs : List FlowLog) (m : List (String × PatientJourney))
    (hm : ∀ p ∈ m, ∀ s ∈ p.2.stages, 0 ≤ s.duration) :
    ∀ p ∈ logs.foldl (addLog deptFilter) m, ∀ s ∈ p.2.stages, 0 ≤ s.duration := by
  induction logs generalizing m with
  | nil => exact hm
  | cons log rest ih =>
    exact ih _ (addLog_stages_nonneg deptFilter m log hm)

/-- **C9.** Every journey produced by the reconstructor has total duration
equal to the sum of its stage durations, with the stages sorted ascending by
entry time, and every record whose derived duration would be negative has
been dropped (all remaining stage durations are nonnegative). -/
theorem C9_journey_durations (deptFilter : Option String) (logs : List FlowLog)
    (j : PatientJourney) (hj : j ∈ getPatientJourneys deptFilter logs) :
    j.totalDuration = (j.stages.map (·.duration)).sum ∧
    List.Sorted stageLE j.stages ∧
    ∀ s ∈ j.stages, 0 ≤ s.duration := by
  rcases List.mem_map.1 hj with ⟨p, hp, rfl⟩
  refine ⟨rfl, List.sorted_insertionSort stageLE _, ?_⟩
  intro s hs
  have hmem : s ∈ p.2.stages :=
    ((List.perm_insertionSort stageLE p.2.stages).mem_iff).1 hs
  exact foldl_addLog_stages_nonneg deptFilter logs [] (by simp) p hp s hmem

/-- Witness for C9 at a concrete input: two logs for one patient, given out
of chronological order, one of them with a one-minute stay in each unit. -/
theorem C9_journey_durations_witness :
    ∃ j ∈ getPatientJourneys none
      [{ patientId := some "p1", departmentName := some "ER",
         entryTime := some 120000, exitTime := some 180000 },
       { patientId := some "p1", departmentName := some "ICU",
         entryTime := some 0, exitTime := some 60000 }],
      j.totalDuration = (j.stages.map (·.duration)).sum ∧
      List.Sorted stageLE j.stages ∧
      ∀ s ∈ j.stages, 0 ≤ s.duration := by
  have hout : getPatientJourneys none
      [{ patientId := some "p1", departmentName := some "ER",
         entryTime := some 120000, exitTime := some 180000 },
       { patientId := some "p1", departmentName := some "ICU",
         entryTime := some 0, exitTime := some 60000 }] =
      [{ patientId := "p1", totalDuration := 2, stages :=
        [{ department := "ICU", category := "Treatment",
           entryTime := 0, exitTime := 60000, duration := 1 },
         { department := "ER", category := "Emergency",
           entryTime := 120000, exitTime := 180000, duration := 1 }] }] := by
    norm_num [getPatientJourneys, addLog, upsert, finalizeJourney,
      categorizeDepartment, lookupKey, DEPARTMENT_CATEGORIES]
    simp [stageLE]
    norm_num
  have hmem : ({ patientId := "p1", totalDuration := 2, stages :=
        [{ department := "ICU", category := "Treatment",
           entryTime := 0, exitTime := 60000, duration := 1 },
         { department := "ER", category := "Emergency",
           entryTime := 120000, exitTime := 180000, duration := 1 }] } : PatientJourney) ∈
      getPatientJourneys none
      [{ patientId := some "p1", departmentName := some "ER",
         entryTime := some 120000, exitTime := some 180000 },
       { patientId := some "p1", departmentName := some "ICU",
         entryTime := some 0, exitTime := some 60000 }] := by
    rw [hout]
    exact List.mem_singleton.2 rfl
  exact ⟨_, hmem, C9_journey_durations none _ _ hmem⟩

/-! ### Association-list lemmas -/

theorem lookupKey_upsert_self {κ α : Type*} [DecidableEq κ] (k : κ) (init : α)
    (f : α → α) (m : List (κ × α)) :
    lookupKey k (upsert k init f m) = some (f ((lookupKey k m).getD init)) := by
  induction m with
  | nil => simp [upsert, lookupKey]
  | cons p rest ih =>
    by_cases hp : p.1 = k
    · simp [upsert, lookupKey, hp]
    · simp [upsert, lookupKey, hp, ih]

theorem lookupKey_upsert_ne {κ α : Type*} [DecidableEq κ] {k k' : κ}
    (h : k' ≠ k) (init : α) (f : α → α) (m : List (κ × α)) :
    lookupKey k' (upsert k init f m) = lookupKey k' m := by
  have hkk : ¬k = k' := fun hc => h hc.symm
  induction m with
  | nil => simp [upsert, lookupKey, hkk]
  | cons p rest ih =>
    by_cases hp : p.1 = k
    · simp [upsert, lookupKey, hp, hkk]
    · by_cases hp' : p.1 = k'
      · simp [upsert, lookupKey, hp, hp', h, hkk]
      · simp [upsert, lookupKey, hp, hp', ih]

theorem keys_upsert {κ α : Type*} [DecidableEq κ] (k : κ) (init : α)
    (f : α → α) (m : List (κ × α)) :
    (upsert k init f m).map (·.1) =
      if k ∈ m.map (·.1) then m.map (·.1) else m.map (·.1) ++ [k] := by
  induction m with
  | nil => simp [upsert]
  | cons p rest ih =>
    by_cases hp : p.1 = k
    · simp [upsert, hp]
    · have : ¬k = p.1 := fun hc => hp hc.symm
      by_cases hk : k ∈ rest.map (·.1) <;> simp [upsert, hp, ih, hk, this]

theorem nodup_keys_upsert {κ α : Type*} [DecidableEq κ] {k : κ} {init : α}
    {f : α → α} {m : List (κ × α)} (h : (m.map (·.1)).Nodup) :
    ((upsert k init f m).map (·.1)).Nodup := by
  rw [keys_upsert]
  by_cases hk : k ∈ m.map (·.1)
  · simpa [hk] using h
  · rw [if_neg hk, List.nodup_append]
    refine ⟨h, List.nodup_singleton _, ?_⟩
    intro a ha hb
    rw [List.mem_singleton] at hb
    exact hk (hb ▸ ha)

theorem lookupKey_eq_some_of_mem {κ α : Type*} [DecidableEq κ]
    {k : κ} {a : α} {m : List (κ × α)} (hnd : (m.map (·.1)).Nodup)
    (h : (k, a) ∈ m) : lookupKey k m = some a := by
  induction m with
  | nil => cases h
  | cons p rest ih =>
    rcases List.mem_cons.1 h with rfl | hmem
    · simp [lookupKey]
    · have hne : ¬p.1 = k := by
        intro hc
        have hk : k ∈ rest.map (·.1) := List.mem_map.2 ⟨(k, a), hmem, rfl⟩
        rw [List.map_cons, List.nodup_cons, hc] at hnd
        exact hnd.1 hk
      simp only [lookupKey, hne, if_false]
      exact ih (List.nodup_cons.1 (by simpa using hnd)).2 hmem

theorem mem_of_lookupKey_eq_some {κ α : Type*} [DecidableEq κ]
    {k : κ} {a : α} {m : List (κ × α)} (h : lookupKey k m = some a) :
    (k, a) ∈ m := by
  induction m with
  | nil => simp [lookupKey] at h
  | cons p rest ih =>
    by_cases hp : p.1 = k
    · simp only [lookupKey, hp, if_true, Option.some.injEq] at h
      subst h
      exact hp ▸ List.mem_cons_self _ _
    · simp only [lookupKey, hp, if_false] at h
      exact List.mem_cons_of_mem _ (ih h)

theorem lookupKey_map_snd {κ α β : Type*} [DecidableEq κ] (g : α → β)
    (k : κ) (m : List (κ × α)) :
    lookupKey k (m.map fun p => (p.1, g p.2)) = (lookupKey k m).map g := by
  induction m with
  | nil => simp [lookupKey]
  | cons p rest ih =>
    by_cases hp : p.1 = k <;> simp [lookupKey, hp, ih]

/-! ### Structure of `analyzeDepartmentFlows` -/

theorem nodup_keys_recordStage {m : List (String × DepartmentAnalysis)}
    (s : Stage) (next? : Option Stage) (h : (m.map (·.1)).Nodup) :
    ((recordStage m s next?).map (·.1)).Nodup :=
  nodup_keys_upsert h

theorem nodup_keys_addJourneyStages (stages : List Stage)
    {m : List (String × DepartmentAnalysis)} (h : (m.map (·.1)).Nodup) :
    ((addJourneyStages m stages).map (·.1)).Nodup := by
  induction stages generalizing m with
  | nil => exact h
  | cons s rest ih => exact ih (nodup_keys_recordStage s rest.head? h)

theorem nodup_keys_phase1 (journeys : List PatientJourney) :
    ((analyzeFlowsPhase1 journeys).map (·.1)).Nodup := by
  have main : ∀ (js : List PatientJourney) (m : List (String × DepartmentAnalysis)),
      (m.map (·.1)).Nodup →
      ((js.foldl (fun m j => addJourneyStages m j.stages) m).map (·.1)).Nodup := by
    intro js
    induction js with
    | nil => exact fun m h => h
    | cons j rest ih =>
      intro m h
      exact ih _ (nodup_keys_addJourneyStages j.stages h)
  exact main journeys [] (by simp)

theorem nodup_keys_analyzeDepartmentFlows (journeys : List PatientJourney) :
    ((analyzeDepartmentFlows journeys).map (·.1)).Nodup := by
  have : (analyzeDepartmentFlows journeys).map (·.1) =
      (analyzeFlowsPhase1 journeys).map (·.1) := by
    simp [analyzeDepartmentFlows]
  rw [this]
  exact nodup_keys_phase1 journeys

theorem applyStage_times (s : Stage) (next? : Option Stage)
    (a0 : DepartmentAnalysis) :
    (applyStage s next? a0).times = a0.times ++ [s.duration] := by
  unfold applyStage
  cases next? with
  | none => rfl
  | some next =>
    by_cases hw : (next.entryTime - s.exitTime) / 60000 > 0 <;> simp [hw]

theorem timesLenAt_recordStage (m : List (String × DepartmentAnalysis))
    (s : Stage) (next? : Option Stage) (dept : String) :
    timesLenAt (recordStage m s next?) dept =
      timesLenAt m dept + if s.department = dept then 1 else 0 := by
  by_cases hd : s.department = dept
  · subst hd
    unfold timesLenAt recordStage
    rw [lookupKey_upsert_self]
    cases hl : lookupKey s.department m with
    | none => simp [applyStage_times]
    | some a => simp [applyStage_times]
  · unfold timesLenAt recordStage
    rw [lookupKey_upsert_ne (fun hc => hd hc.symm)]
    simp [hd]

theorem timesLenAt_addJourneyStages (stages : List Stage)
    (m : List (String × DepartmentAnalysis)) (dept : String) :
    timesLenAt (addJourneyStages m stages) dept =
      timesLenAt m dept + (stages.filter fun s => s.department = dept).length := by
  induction stages generalizing m with
  | nil => simp [addJourneyStages]
  | cons s rest ih =>
    show timesLenAt (addJourneyStages (recordStage m s rest.head?) rest) dept = _
    rw [ih, timesLenAt_recordStage]
    by_cases hd : s.department = dept <;>
      simp [hd, List.filter_cons] <;> omega

theorem timesLenAt_phase1 (journeys : List PatientJourney) (dept : String) :
    timesLenAt (analyzeFlowsPhase1 journeys) dept = countStages journeys dept := by
  have main : ∀ (js : List PatientJourney) (m : List (String × DepartmentAnalysis)),
      timesLenAt (js.foldl (fun m j => addJourneyStages m j.stages) m) dept =
        timesLenAt m dept + countStages js dept := by
    intro js
    induction js with
    | nil => simp [countStages]
    | cons j rest ih =>
      intro m
      show timesLenAt (rest.foldl _ (addJourneyStages m j.stages)) dept = _
      rw [ih, timesLenAt_addJourneyStages]
      simp [countStages]
      omega
  have h0 : timesLenAt [] dept = 0 := by simp [timesLenAt, lookupKey]
  have := main journeys []
  rw [h0] at this
  simpa [analyzeFlowsPhase1] using this

theorem lookupKey_analyzeDepartmentFlows (journeys : List PatientJourney)
    (dept : String) :
    lookupKey dept (analyzeDepartmentFlows journeys) =
      (lookupKey dept (analyzeFlowsPhase1 journeys)).map setAnalysisStats := by
  simpa [analyzeDepartmentFlows] using
    lookupKey_map_snd setAnalysisStats dept (analyzeFlowsPhase1 journeys)

theorem times_length_analyzeDepartmentFlows {journeys : List PatientJourney}
    {dept : String} {a : DepartmentAnalysis}
    (h : lookupKey dept (analyzeDepartmentFlows journeys) = some a) :
    a.times.length = countStages journeys dept := by
  rw [lookupKey_analyzeDepartmentFlows] at h
  cases hl : lookupKey dept (analyzeFlowsPhase1 journeys) with
  | none => rw [hl] at h; cases h
  | some a0 =>
    rw [hl] at h
    have ha : a = setAnalysisStats a0 := by
      simpa using h.symm
    have htimes : a.times = a0.times := by rw [ha]; rfl
    have := timesLenAt_phase1 journeys dept
    rw [timesLenAt, hl] at this
    simpa [htimes] using this

/-! ### Structure of `detectBottlenecks` -/

theorem buildBottleneck_name {g v : Statistics} {k : String}
    {a : DepartmentAnalysis} {b : BottleneckDetection}
    (h : buildBottleneck g v k a = some b) : b.departmentName = k := by
  unfold buildBottleneck at h
  by_cases hlen : a.times.length < 3
  · rw [if_pos hlen] at h; cases h
  · rw [if_neg hlen] at h
    rcases Option.map_eq_some'.1 h with ⟨ty, _, hb⟩
    rw [← hb]

theorem buildBottleneck_isSome_iff (g v : Statistics) (k : String)
    (a : DepartmentAnalysis) :
    (buildBottleneck g v k a).isSome ↔
      3 ≤ a.times.length ∧
      (bottleneckTypeOf
        (loadLevelOf (volumePercentileOf a.patientVolume v.mean))
        (delayPropagationScoreOf (avgDownstreamDelayOf a) a.actualTime)
        (timeDeviationOf a.actualTime a.expectedTime)
        (varianceRatioOf (calculateStatistics a.times).stdDev g.stdDev)
        (congestionIndicatorOf (calculateStatistics a.times).stdDev
          (calculateStatistics a.times).mean)).isSome := by
  unfold buildBottleneck
  by_cases hlen : a.times.length < 3
  · rw [if_pos hlen]
    constructor
    · intro hc
      exact absurd hc (by simp)
    · rintro ⟨h3, -⟩
      omega
  · rw [if_neg hlen]
    simp only [Option.isSome_map]
    have h3 : 3 ≤ a.times.length := Nat.le_of_not_lt hlen
    simp [h3]

theorem mem_filterMap_names {l : List (String × DepartmentAnalysis)}
    (g v : Statistics) {dept : String} (hnd : (l.map (·.1)).Nodup) :
    dept ∈ (l.filterMap fun p => buildBottleneck g v p.1 p.2).map
        (·.departmentName) ↔
      ∃ a, lookupKey dept l = some a ∧ (buildBottleneck g v dept a).isSome := by
  constructor
  · intro hm
    rcases List.mem_map.1 hm with ⟨b, hb, hname⟩
    rcases List.mem_filterMap.1 hb with ⟨p, hp, hbp⟩
    have hn : b.departmentName = p.1 := buildBottleneck_name hbp
    have hdept : p.1 = dept := by rw [← hname, hn]
    refine ⟨p.2, ?_, ?_⟩
    · exact hdept ▸ lookupKey_eq_some_of_mem hnd (by simpa using hp)
    · rw [← hdept]
      exact hbp ▸ rfl
  · rintro ⟨a, hl, hs⟩
    have hmem := mem_of_lookupKey_eq_some hl
    rcases Option.isSome_iff_exists.1 hs with ⟨b, hb⟩
    exact List.mem_map.2
      ⟨b, List.mem_filterMap.2 ⟨(dept, a), hmem, hb⟩, buildBottleneck_name hb⟩

theorem map_departmentName_assignRanks (n : ℕ) (l : List BottleneckDetection) :
    (assignRanks n l).map (·.departmentName) = l.map (·.departmentName) := by
  induction l generalizing n with
  | nil => rfl
  | cons b rest ih => simp [assignRanks, ih]

theorem map_score_assignRanks (n : ℕ) (l : List BottleneckDetection) :
    (assignRanks n l).map (·.overallImpactScore) =
      l.map (·.overallImpactScore) := by
  induction l generalizing n with
  | nil => rfl
  | cons b rest ih => simp [assignRanks, ih]

theorem length_assignRanks (n : ℕ) (l : List BottleneckDetection) :
    (assignRanks n l).length = l.length := by
  induction l generalizing n with
  | nil => rfl
  | cons b rest ih => simp [assignRanks, ih]

theorem map_rank_assignRanks (n : ℕ) (l : List BottleneckDetection) :
    (assignRanks n l).map (·.rank) = List.range' n l.length := by
  induction l generalizing n with
  | nil => rfl
  | cons b rest ih => simp [assignRanks, ih, List.range'_succ]

theorem pairwise_scoreGE_assignRanks {l : List BottleneckDetection} (n : ℕ)
    (h : l.Pairwise scoreGE) : (assignRanks n l).Pairwise scoreGE := by
  induction l generalizing n with
  | nil => exact List.Pairwise.nil
  | cons b rest ih =>
    rcases List.pairwise_cons.1 h with ⟨hb, hrest⟩
    refine List.pairwise_cons.2 ⟨?_, ih _ hrest⟩
    intro b' hb'
    have hmem : b'.overallImpactScore ∈
        (assignRanks (n + 1) rest).map (·.overallImpactScore) :=
      List.mem_map.2 ⟨b', hb', rfl⟩
    rw [map_score_assignRanks] at hmem
    rcases List.mem_map.1 hmem with ⟨c, hc, hscore⟩
    have hbc := hb c hc
    show b'.overallImpactScore ≤ b.overallImpactScore
    rw [← hscore]
    exact hbc

/-- **C1.** A unit appears in the bottleneck output iff it has at least 3
duration samples and the ordered first-match rule (`bottleneckTypeOf`:
moderate load ∧ delay-propagation > 30 → invisible; else high load ∧
time-deviation > 50 → obvious; else variance-ratio > 1.3 ∧
congestion-indicator > 0.8 → emerging; else excluded) assigns it a type; in
particular a unit with exactly 2 samples never appears and one with exactly
3 samples passes the sample gate.  The recorded sample count of a unit is
its number of stages across all journeys. -/
theorem C1_bottleneck_membership (journeys : List PatientJourney)
    (h : NonnegDurations journeys) (dept : String) :
    (dept ∈ (detectBottlenecks journeys).map (·.departmentName) ↔
      ∃ a, lookupKey dept (analyzeDepartmentFlows journeys) = some a ∧
        3 ≤ a.times.length ∧
        (bottleneckTypeOf
          (loadLevelOf (volumePercentileOf a.patientVolume (volumeStatsOf journeys).mean))
          (delayPropagationScoreOf (avgDownstreamDelayOf a) a.actualTime)
          (timeDeviationOf a.actualTime a.expectedTime)
          (varianceRatioOf (calculateStatistics a.times).stdDev
            (globalStatsOf journeys).stdDev)
          (congestionIndicatorOf (calculateStatistics a.times).stdDev
            (calculateStatistics a.times).mean)).isSome) ∧
    (∀ a, lookupKey dept (analyzeDepartmentFlows journeys) = some a →
      a.times.length = countStages journeys dept) := by
  constructor
  · have hnd := nodup_keys_analyzeDepartmentFlows journeys
    unfold detectBottlenecks
    cases hA : analyzeDepartmentFlows journeys with
    | nil => simp [lookupKey]
    | cons p rest =>
      rw [hA] at hnd
      dsimp only
      rw [map_departmentName_assignRanks]
      unfold sortByOverallDesc
      rw [(((List.perm_insertionSort scoreGE _)).map
        (·.departmentName)).mem_iff]
      rw [mem_filterMap_names (globalStatsOf journeys) (volumeStatsOf journeys) hnd]
      exact exists_congr fun a => and_congr_right fun _ =>
        buildBottleneck_isSome_iff (globalStatsOf journeys) (volumeStatsOf journeys) dept a
  · intro a ha
    exact times_length_analyzeDepartmentFlows ha

/-- Witness for C1: the nonnegative-durations hypothesis is discharged at
the concrete input `sampleJourneys`. -/
theorem C1_bottleneck_membership_witness :
    NonnegDurations sampleJourneys ∧
    ("ER" ∈ (detectBottlenecks sampleJourneys).map (·.departmentName) ↔
      ∃ a, lookupKey "ER" (analyzeDepartmentFlows sampleJourneys) = some a ∧
        3 ≤ a.times.length ∧
        (bottleneckTypeOf
          (loadLevelOf (volumePercentileOf a.patientVolume
            (volumeStatsOf sampleJourneys).mean))
          (delayPropagationScoreOf (avgDownstreamDelayOf a) a.actualTime)
          (timeDeviationOf a.actualTime a.expectedTime)
          (varianceRatioOf (calculateStatistics a.times).stdDev
            (globalStatsOf sampleJourneys).stdDev)
          (congestionIndicatorOf (calculateStatistics a.times).stdDev
            (calculateStatistics a.times).mean)).isSome) := by
  have hnn : NonnegDurations sampleJourneys := by
    intro j hj s hs
    simp only [sampleJourneys, List.mem_singleton] at hj
    subst hj
    simp only [List.mem_cons, List.mem_singleton] at hs
    rcases hs with rfl | rfl | rfl | hs
    · norm_num
    · norm_num
    · norm_num
    · cases hs
  exact ⟨hnn, (C1_bottleneck_membership sampleJourneys hnn "ER").1⟩

/-- **C3.** In every output of `detectBottlenecks`, the rank fields are the
dense sequence 1..N in order, and the list is pairwise sorted by
non-increasing overall impact score (every earlier record's score is ≥
every later one's). -/
theorem C3_dense_ranks (journeys : List PatientJourney)
    (h : NonnegDurations journeys) :
    (detectBottlenecks journeys).map (·.rank) =
      List.range' 1 (detectBottlenecks journeys).length ∧
    (detectBottlenecks journeys).Pairwise
      (fun a b => b.overallImpactScore ≤ a.overallImpactScore) := by
  unfold detectBottlenecks
  cases hA : analyzeDepartmentFlows journeys with
  | nil => simp
  | cons p rest =>
    dsimp only
    constructor
    · rw [map_rank_assignRanks, length_assignRanks]
    · have hs : (sortByOverallDesc ((p :: rest).filterMap fun q =>
          buildBottleneck (globalStatsOf journeys) (volumeStatsOf journeys)
            q.1 q.2)).Pairwise scoreGE :=
        List.sorted_insertionSort scoreGE _
      exact pairwise_scoreGE_assignRanks 1 hs

/-- Witness for C3 at the concrete input `sampleJourneys`. -/
theorem C3_dense_ranks_witness :
    NonnegDurations sampleJourneys ∧
    ((detectBottlenecks sampleJourneys).map (·.rank) =
      List.range' 1 (detectBottlenecks sampleJourneys).length ∧
    (detectBottlenecks sampleJourneys).Pairwise
      (fun a b => b.overallImpactScore ≤ a.overallImpactScore)) := by
  have hnn : NonnegDurations sampleJourneys := by
    intro j hj s hs
    simp only [sampleJourneys, List.mem_singleton] at hj
    subst hj
    simp only [List.mem_cons, List.mem_singleton] at hs
    rcases hs with rfl | rfl | rfl | hs
    · norm_num
    · norm_num
    · norm_num
    · cases hs
  exact ⟨hnn, C3_dense_ranks sampleJourneys hnn⟩

/-- **C7 (amended).** Every zero-denominator guard listed by the spec holds
(z-score, IQR position, variance ratio, time deviation), but the
delay-propagation score has **no** guard: with a zero unit mean it is 100
whenever a positive downstream delay was recorded (JS `Infinity` clamped by
`Math.min`), never the documented 0; with no downstream delay JS yields
`NaN` (modelled as 0, and such a unit is never classified). -/
theorem C7_zero_denominator_guards :
    (∀ v m : ℝ, calculateZScore v m 0 = 0) ∧
    (∀ v q1 q3 : ℚ, calculateIQRPosition v q1 q3 0 = 0) ∧
    (∀ d : ℝ, varianceRatioOf d 0 = 1) ∧
    (∀ actual : ℚ, timeDeviationOf actual 0 = 0) ∧
    (∀ avg : ℚ, delayPropagationScoreOf avg 0 = if 0 < avg then 100 else 0) := by
  refine ⟨?_, ?_, ?_, ?_, ?_⟩ <;> intros <;>
    simp [calculateZScore, calculateIQRPosition, varianceRatioOf,
      timeDeviationOf, delayPropagationScoreOf]

/-- Counterexample to C7 as stated: with unit mean 0 and average downstream
delay 10, the delay-propagation score is 100 (JS: `min(Infinity, 100)`),
not the claimed 0. -/
theorem C7_counterexample :
    delayPropagationScoreOf 10 0 = 100 ∧ ¬ delayPropagationScoreOf 10 0 = 0 := by
  norm_num [delayPropagationScoreOf]

/-- **C4 (code bug).** The readmission scorer adds the +10 "Weekend
Discharge" factor based on the day of week of the **admission** date
(line 525 reads `record.admissionDate`), not the discharge date, although
the factor's own name and the spec key it to the discharge: a record
admitted on a Friday and discharged on a Monday scores 10 with the
"Weekend Discharge" factor even though its discharge is a Monday. -/
theorem C4_weekend_factor_uses_admission_date :
    jsGetDay 86400000 = 5 ∧
    jsGetDay 345600000 = 1 ∧
    (predictReadmissionRisk c4Record []).riskScore = 10 ∧
    (predictReadmissionRisk c4Record []).contributingFactors =
      [{ factor := "Weekend Discharge", impact := 10 }] ∧
    (predictReadmissionRisk c4Record []).riskLevel = RiskLevel.low := by
  refine ⟨?_, ?_, ?_, ?_, ?_⟩
  · norm_num [jsGetDay]
  · norm_num [jsGetDay]
  · norm_num [predictReadmissionRisk, c4Record, calculateLengthOfStay,
      calculateOperationalDelayScore, jsGetDay]
  · norm_num [predictReadmissionRisk, c4Record, calculateLengthOfStay,
      calculateOperationalDelayScore, jsGetDay]
  · norm_num [predictReadmissionRisk, c4Record, calculateLengthOfStay,
      calculateOperationalDelayScore, jsGetDay]

/-- **C10.** The contributing-factor list of every risk score is sorted in
non-increasing order of impact weight. -/
theorem C10_factors_sorted_desc (record : PatientRecord)
    (historicalRecords : List PatientRecord) :
    (predictReadmissionRisk record historicalRecords).contributingFactors.Pairwise
      (fun a b => b.impact ≤ a.impact) := by
  simp only [predictReadmissionRisk]
  exact List.sorted_insertionSort factorGE _

/-! ### Structure of `getDelayPropagationMap` -/

theorem nodup_keys_collectStagePair {m : List ((String × String) × DelayTally)}
    (cur next : Stage) (h : (m.map (·.1)).Nodup) :
    ((collectStagePair m cur next).map (·.1)).Nodup := by
  unfold collectStagePair
  by_cases hw : (next.entryTime - cur.exitTime) / 60000 > 5
  · rw [if_pos hw]
    exact nodup_keys_upsert h
  · rwa [if_neg hw]

theorem nodup_keys_collectJourneyStages (stages : List Stage)
    {m : List ((String × String) × DelayTally)} (h : (m.map (·.1)).Nodup) :
    ((collectJourneyStages m stages).map (·.1)).Nodup := by
  induction stages generalizing m with
  | nil => exact h
  | cons s rest ih =>
    refine ih ?_
    unfold collectStep
    cases rest.head? with
    | none => exact h
    | some next => exact nodup_keys_collectStagePair s next h

theorem nodup_keys_delayFold (journeys : List PatientJourney) :
    ((journeys.foldl (fun m j => collectJourneyStages m j.stages) []).map
      (·.1)).Nodup := by
  have main : ∀ (js : List PatientJourney) (m : List ((String × String) × DelayTally)),
      (m.map (·.1)).Nodup →
      ((js.foldl (fun m j => collectJourneyStages m j.stages) m).map (·.1)).Nodup := by
    intro js
    induction js with
    | nil => exact fun m h => h
    | cons j rest ih => exact fun m h => ih _ (nodup_keys_collectJourneyStages j.stages h)
  exact main journeys [] (by simp)

theorem addTally_nil (o : Option DelayTally) : addTally o [] = o := by
  cases o <;> rfl

theorem addTally_append (o : Option DelayTally) (ws1 ws2 : List ℚ) :
    addTally o (ws1 ++ ws2) = addTally (addTally o ws1) ws2 := by
  cases o with
  | none =>
    cases ws1 with
    | nil => simp [addTally]
    | cons w ws =>
      cases ws2 with
      | nil => simp [addTally]
      | cons w2 ws2' =>
        simp [addTally, add_assoc]
        omega
  | some t =>
    cases ws1 with
    | nil => simp [addTally]
    | cons w ws =>
      cases ws2 with
      | nil => simp [addTally]
      | cons w2 ws2' =>
        simp [addTally, add_assoc]
        omega

theorem lookup_collectStagePair (m : List ((String × String) × DelayTally))
    (cur next : Stage) (src tgt : String) :
    lookupKey (src, tgt) (collectStagePair m cur next) =
      addTally (lookupKey (src, tgt) m) (pairWait src tgt cur (some next)) := by
  rw [show pairWait src tgt cur (some next) =
    (if cur.department = src ∧ next.department = tgt ∧
        (next.entryTime - cur.exitTime) / 60000 > 5 then
      [(next.entryTime - cur.exitTime) / 60000]
    else []) from rfl]
  unfold collectStagePair
  by_cases hw : (next.entryTime - cur.exitTime) / 60000 > 5
  · rw [if_pos hw]
    by_cases hk : (cur.department, next.department) = (src, tgt)
    · have h1 : cur.department = src := congrArg Prod.fst hk
      have h2 : next.department = tgt := congrArg Prod.snd hk
      rw [if_pos ⟨h1, h2, hw⟩, ← h1, ← h2, lookupKey_upsert_self]
      cases hl : lookupKey (cur.department, next.department) m with
      | none => simp [addTally]
      | some t => simp [addTally]
    · have hne : (src, tgt) ≠ (cur.department, next.department) :=
        fun hc => hk hc.symm
      rw [lookupKey_upsert_ne hne]
      rw [if_neg (fun hc => hk (by rw [hc.1, hc.2.1]))]
      rw [addTally_nil]
  · rw [if_neg hw, if_neg (fun hc => hw hc.2.2), addTally_nil]

theorem lookup_collectStep (m : List ((String × String) × DelayTally))
    (s : Stage) (next? : Option Stage) (src tgt : String) :
    lookupKey (src, tgt) (collectStep m s next?) =
      addTally (lookupKey (src, tgt) m) (pairWait src tgt s next?) := by
  cases next? with
  | none =>
    rw [show pairWait src tgt s none = [] from rfl, addTally_nil]
    rfl
  | some next => exact lookup_collectStagePair m s next src tgt

theorem lookup_collectJourneyStages (stages : List Stage)
    (m : List ((String × String) × DelayTally)) (src tgt : String) :
    lookupKey (src, tgt) (collectJourneyStages m stages) =
      addTally (lookupKey (src, tgt) m) (journeyPairWaits src tgt stages) := by
  induction stages generalizing m with
  | nil =>
    rw [show journeyPairWaits src tgt [] = [] from rfl, addTally_nil]
    rfl
  | cons s rest ih =>
    show lookupKey (src, tgt) (collectJourneyStages (collectStep m s rest.head?) rest) = _
    rw [ih, lookup_collectStep]
    show _ = addTally (lookupKey (src, tgt) m)
      (pairWait src tgt s rest.head? ++ journeyPairWaits src tgt rest)
    rw [addTally_append]

theorem lookup_delayFold (journeys : List PatientJourney) (src tgt : String) :
    lookupKey (src, tgt)
        (journeys.foldl (fun m j => collectJourneyStages m j.stages) []) =
      addTally none (pairWaits journeys src tgt) := by
  have main : ∀ (js : List PatientJourney) (m : List ((String × String) × DelayTally)),
      lookupKey (src, tgt) (js.foldl (fun m j => collectJourneyStages m j.stages) m) =
        addTally (lookupKey (src, tgt) m) (pairWaits js src tgt) := by
    intro js
    induction js with
    | nil =>
      intro m
      rw [show pairWaits [] src tgt = [] from rfl, addTally_nil]
      rfl
    | cons j rest ih =>
      intro m
      show lookupKey (src, tgt)
          (rest.foldl _ (collectJourneyStages m j.stages)) = _
      rw [ih, lookup_collectJourneyStages]
      show _ = addTally (lookupKey (src, tgt) m)
        (journeyPairWaits src tgt j.stages ++ pairWaits rest src tgt)
      rw [addTally_append]
  have h := main journeys []
  rw [show lookupKey (src, tgt)
    ([] : List ((String × String) × DelayTally)) = none from rfl] at h
  exact h

/-- **C5 (amended).** Every delay edge aggregates exactly the consecutive
waits strictly above 5 minutes for its (source, target) pair: its patient
count is the number of such waits, its reported average delay is the mean
of those waits rounded to the nearest integer, and its strength is
min(100, (mean / 60) × 100) rounded to one decimal; the edge list is sorted
by non-increasing (rounded) strength; a 5-minute gap produces no edge and a
6-minute gap produces one. -/
theorem C5_delay_propagation :
    (∀ journeys : List PatientJourney,
      (getDelayPropagationMap journeys).Pairwise
        (fun a b => b.propagationStrength ≤ a.propagationStrength) ∧
      ∀ e ∈ getDelayPropagationMap journeys,
        pairWaits journeys e.sourceDepartment e.targetDepartment ≠ [] ∧
        (e.patientsAffected : ℕ) =
          (pairWaits journeys e.sourceDepartment e.targetDepartment).length ∧
        e.avgDelayTransferred = jsRound
          ((pairWaits journeys e.sourceDepartment e.targetDepartment).sum /
            (pairWaits journeys e.sourceDepartment e.targetDepartment).length) ∧
        e.propagationStrength = jsRound1 (min
          ((pairWaits journeys e.sourceDepartment e.targetDepartment).sum /
            (pairWaits journeys e.sourceDepartment e.targetDepartment).length /
            60 * 100) 100)) ∧
    getDelayPropagationMap (gapJourney 300000) = [] ∧
    (getDelayPropagationMap (gapJourney 360000)).map
      (fun e => (e.sourceDepartment, e.targetDepartment,
        e.avgDelayTransferred, e.patientsAffected)) = [("A", "B", 6, 1)] := by
  refine ⟨?_, ?_, ?_⟩
  · intro journeys
    constructor
    · exact List.sorted_insertionSort strengthGE _
    · intro e he
      unfold getDelayPropagationMap at he
      rw [List.mem_insertionSort] at he
      rcases List.mem_map.1 he with ⟨p, hp, rfl⟩
      have hnd := nodup_keys_delayFold journeys
      have hl : lookupKey p.1
          (journeys.foldl (fun m j => collectJourneyStages m j.stages) []) =
          some p.2 :=
        lookupKey_eq_some_of_mem hnd (by simpa using hp)
      have hl2 := lookup_delayFold journeys p.1.1 p.1.2
      rw [show ((p.1.1, p.1.2) : String × String) = p.1 from rfl, hl] at hl2
      cases hws : pairWaits journeys p.1.1 p.1.2 with
      | nil =>
        rw [hws] at hl2
        rw [addTally_nil] at hl2
        cases hl2
      | cons w ws =>
        rw [hws] at hl2
        have hp2 : p.2 = { totalDelay := (w :: ws).sum, count := (w :: ws).length } := by
          simpa [addTally] using hl2
        refine ⟨?_, ?_, ?_, ?_⟩
        · simp
        · show p.2.count = (w :: ws).length
          rw [hp2]
        · show jsRound (p.2.totalDelay / (p.2.count : ℚ)) =
            jsRound ((w :: ws).sum / ((w :: ws).length : ℚ))
          rw [hp2]
        · show jsRound1 (min (p.2.totalDelay / (p.2.count : ℚ) / 60 * 100) 100) =
            jsRound1 (min ((w :: ws).sum / ((w :: ws).length : ℚ) / 60 * 100) 100)
          rw [hp2]
  · norm_num [getDelayPropagationMap, gapJourney, collectJourneyStages,
      collectStep, collectStagePair, upsert]
  · norm_num [getDelayPropagationMap, gapJourney, collectJourneyStages,
      collectStep, collectStagePair, upsert, jsRound, jsRound1, strengthGE]

/-- Witness for C5: a 6-minute gap from "A" to "B" produces one edge; the
per-edge characterization is obtained from the theorem at that member. -/
theorem C5_delay_propagation_witness :
    ∃ e ∈ getDelayPropagationMap (gapJourney 360000),
      pairWaits (gapJourney 360000) e.sourceDepartment e.targetDepartment ≠ [] ∧
      (e.patientsAffected : ℕ) =
        (pairWaits (gapJourney 360000) e.sourceDepartment e.targetDepartment).length ∧
      e.avgDelayTransferred = jsRound
        ((pairWaits (gapJourney 360000) e.sourceDepartment e.targetDepartment).sum /
          (pairWaits (gapJourney 360000) e.sourceDepartment e.targetDepartment).length) ∧
      e.propagationStrength = jsRound1 (min
        ((pairWaits (gapJourney 360000) e.sourceDepartment e.targetDepartment).sum /
          (pairWaits (gapJourney 360000) e.sourceDepartment e.targetDepartment).length /
          60 * 100) 100) := by
  have hout : getDelayPropagationMap (gapJourney 360000) =
      [{ sourceDepartment := "A", targetDepartment := "B",
         avgDelayTransferred := 6, patientsAffected := 1,
         propagationStrength := 10 }] := by
    norm_num [getDelayPropagationMap, gapJourney, collectJourneyStages,
      collectStep, collectStagePair, upsert, jsRound, jsRound1, strengthGE]
  have hmem : ({ sourceDepartment := "A", targetDepartment := "B",
                 avgDelayTransferred := 6, patientsAffected := 1,
                 propagationStrength := 10 } : DelayPropagation) ∈
      getDelayPropagationMap (gapJourney 360000) := by
    rw [hout]
    exact List.mem_singleton.2 rfl
  exact ⟨_, hmem, (C5_delay_propagation.1 (gapJourney 360000)).2 _ hmem⟩

/-- Counterexample to C5 as stated: a single 10-minute wait gives the edge
the reported strength 16.7 (the source rounds `min(100, (10/60)·100)` to
one decimal), which differs from the claim's exact value 50/3 = 16.66…;
the reported average delay is likewise `Math.round`ed. -/
theorem C5_counterexample :
    (getDelayPropagationMap (gapJourney 600000)).map (·.propagationStrength) =
      [167/10] ∧
    min ((10 : ℚ) / 60 * 100) 100 = 50/3 ∧
    ¬ (167/10 : ℚ) = 50/3 := by
  refine ⟨?_, by norm_num, by norm_num⟩
  norm_num [getDelayPropagationMap, gapJourney, collectJourneyStages,
    collectStep, collectStagePair, upsert, jsRound, jsRound1, strengthGE]

/-! ### Intervention simulator claims -/

/-- **C6 (amended).** Simulating an intervention whose type is none of
`staff`, `beds`, `processing_time` does **not** fail: the `switch` falls
through to `projected = baseline` and a normal result is returned, with
unchanged projected metrics, all-zero improvements, zero estimated cost and
zero ROI. -/
theorem C6_unknown_type_returns_baseline (intervention : SimulationIntervention)
    (baseline : SimulationMetrics) (currentStaff currentBeds : ℚ)
    (h1 : intervention.type ≠ "staff") (h2 : intervention.type ≠ "beds")
    (h3 : intervention.type ≠ "processing_time") :
    (simulateIntervention intervention baseline currentStaff currentBeds).projected =
      baseline ∧
    (simulateIntervention intervention baseline currentStaff currentBeds).improvements =
      { losReduction := 0, losReductionPercent := 0, bedUtilizationChange := 0,
        readmissionRiskReduction := 0, patientsImpacted := baseline.throughput } ∧
    (simulateIntervention intervention baseline currentStaff
      currentBeds).costBenefit.estimatedCost = 0 ∧
    (simulateIntervention intervention baseline currentStaff
      currentBeds).costBenefit.roi = 0 := by
  have hz1 : jsRound1 (0 : ℚ) = 0 := by norm_num [jsRound1]
  have hz2 : jsRound2 (0 : ℚ) = 0 := by norm_num [jsRound2]
  have hpct : (if baseline.averageLOS > 0 then
      (baseline.averageLOS - baseline.averageLOS) / baseline.averageLOS * 100
      else 0) = 0 := by
    by_cases h : baseline.averageLOS > 0 <;> simp [h]
  refine ⟨?_, ?_, ?_, ?_⟩ <;>
    simp [simulateIntervention, calculateCostBenefit, h1, h2, h3, hz1, hz2, hpct]

/-- Witness for C6: a concrete "equipment" intervention on a concrete
baseline; the three type hypotheses are discharged by computation. -/
theorem C6_unknown_type_returns_baseline_witness :
    (("equipment" : String) ≠ "staff" ∧ ("equipment" : String) ≠ "beds" ∧
      ("equipment" : String) ≠ "processing_time") ∧
    ((simulateIntervention { type := "equipment", departmentName := "ER", value := 3 }
        { averageLOS := 5, bedUtilization := 80, avgProcessingTime := 120,
          readmissionRisk := 20, throughput := 50 } 10 20).projected =
      { averageLOS := 5, bedUtilization := 80, avgProcessingTime := 120,
        readmissionRisk := 20, throughput := 50 } ∧
    (simulateIntervention { type := "equipment", departmentName := "ER", value := 3 }
        { averageLOS := 5, bedUtilization := 80, avgProcessingTime := 120,
          readmissionRisk := 20, throughput := 50 } 10 20).improvements =
      { losReduction := 0, losReductionPercent := 0, bedUtilizationChange := 0,
        readmissionRiskReduction := 0, patientsImpacted := 50 } ∧
    (simulateIntervention { type := "equipment", departmentName := "ER", value := 3 }
        { averageLOS := 5, bedUtilization := 80, avgProcessingTime := 120,
          readmissionRisk := 20, throughput := 50 } 10 20).costBenefit.estimatedCost = 0 ∧
    (simulateIntervention { type := "equipment", departmentName := "ER", value := 3 }
        { averageLOS := 5, bedUtilization := 80, avgProcessingTime := 120,
          readmissionRisk := 20, throughput := 50 } 10 20).costBenefit.roi = 0) :=
  ⟨⟨by decide, by decide, by decide⟩,
   C6_unknown_type_returns_baseline
     { type := "equipment", departmentName := "ER", value := 3 }
     { averageLOS := 5, bedUtilization := 80, avgProcessingTime := 120,
       readmissionRisk := 20, throughput := 50 } 10 20
     (by decide) (by decide) (by decide)⟩

/-- Counterexample to C6 as stated: the unknown intervention type
"equipment" does **not** raise a descriptive error — `simulateIntervention`
returns a result whose projected metrics equal the baseline and whose cost
is 0. -/
theorem C6_counterexample :
    (simulateIntervention { type := "equipment", departmentName := "ER", value := 3 }
        { averageLOS := 5, bedUtilization := 80, avgProcessingTime := 120,
          readmissionRisk := 20, throughput := 50 } 10 20).projected =
      { averageLOS := 5, bedUtilization := 80, avgProcessingTime := 120,
        readmissionRisk := 20, throughput := 50 } ∧
    (simulateIntervention { type := "equipment", departmentName := "ER", value := 3 }
        { averageLOS := 5, bedUtilization := 80, avgProcessingTime := 120,
          readmissionRisk := 20, throughput := 50 } 10 20).costBenefit.estimatedCost = 0 := by
  constructor
  · simp [simulateIntervention]
  · simp [simulateIntervention, calculateCostBenefit]

/-! ### Per-unit bottleneck prediction claims -/

theorem nodup_keys_addPredRecord {m : List (String × DeptPredMetrics)}
    (record : PatientRecord) (h : (m.map (·.1)).Nodup) :
    ((addPredRecord m record).map (·.1)).Nodup := by
  unfold addPredRecord
  cases record.currentDepartment with
  | none => exact h
  | some dept => exact nodup_keys_upsert h

theorem nodup_keys_collectPredMetrics (records : List PatientRecord) :
    ((collectPredMetrics records).map (·.1)).Nodup := by
  unfold collectPredMetrics
  have main : ∀ (rs : List PatientRecord) (m : List (String × DeptPredMetrics)),
      (m.map (·.1)).Nodup → ((rs.foldl addPredRecord m).map (·.1)).Nodup := by
    intro rs
    induction rs with
    | nil => exact fun m h => h
    | cons r rest ih => exact fun m h => ih _ (nodup_keys_addPredRecord r h)
  exact main records [] (by simp)

/-- **C8 (amended).** Each per-unit prediction's risk tier and probability
are assigned by `riskAssignOf` applied to the unit's delay frequency and
average delay, whose thresholds are **strict**: frequency > 0.3 ∧ average
delay > 120 → critical/0.85, else frequency > 0.2 ∨ average > 90 →
high/0.65, else frequency > 0.1 ∨ average > 60 → medium/0.40, else
low/0.15; in particular a unit with delay frequency exactly 0.3 and average
delay above 120 minutes is high (0.65), not critical. -/
theorem C8_risk_thresholds (records : List PatientRecord) (now : ℚ) :
    (∀ p ∈ predictBottlenecks records now,
      ∃ met, lookupKey p.departmentName (collectPredMetrics records) = some met ∧
        (p.riskLevel, p.probability) =
          riskAssignOf ((met.delays.length : ℚ) / (met.totalPatients : ℚ))
            (if met.delays.length > 0 then met.delays.sum / (met.delays.length : ℚ)
             else 0)) ∧
    riskAssignOf (3/10) 130 = (RiskLevel.high, 0.65) ∧
    riskAssignOf (31/100) 130 = (RiskLevel.critical, 0.85) ∧
    riskAssignOf (1/5) 90 = (RiskLevel.medium, 0.40) ∧
    riskAssignOf (1/10) 60 = (RiskLevel.low, 0.15) := by
  refine ⟨?_, ?_, ?_, ?_, ?_⟩
  · intro p hp
    unfold predictBottlenecks at hp
    rw [List.mem_insertionSort] at hp
    rcases List.mem_map.1 hp with ⟨q, hq, rfl⟩
    have hnd := nodup_keys_collectPredMetrics records
    refine ⟨q.2, lookupKey_eq_some_of_mem hnd (by simpa using hq), ?_⟩
    rfl
  · norm_num [riskAssignOf]
  · norm_num [riskAssignOf]
  · norm_num [riskAssignOf]
  · norm_num [riskAssignOf]

/-- Witness for C8: the prediction computed on `c8Records` (delay frequency
exactly 0.3, average delay 130) is a member of the output, with its metrics
entry recoverable by lookup. -/
theorem C8_risk_thresholds_witness :
    ∃ p ∈ predictBottlenecks c8Records 0,
      ∃ met, lookupKey p.departmentName (collectPredMetrics c8Records) = some met ∧
        (p.riskLevel, p.probability) =
          riskAssignOf ((met.delays.length : ℚ) / (met.totalPatients : ℚ))
            (if met.delays.length > 0 then met.delays.sum / (met.delays.length : ℚ)
             else 0) := by
  have hmem : ({ departmentName := "ER", riskLevel := RiskLevel.high,
                 predictedDate := 604800000, probability := 13/20,
                 expectedImpact := 39 } : BottleneckPrediction) ∈
      predictBottlenecks c8Records 0 := by
    have hout : predictBottlenecks c8Records 0 =
        [{ departmentName := "ER", riskLevel := RiskLevel.high,
           predictedDate := 604800000, probability := 13/20,
           expectedImpact := 39 }] := by
      norm_num [predictBottlenecks, collectPredMetrics, c8Records, upsert,
        riskAssignOf, daysUntilOf, jsRound]
    rw [hout]
    exact List.mem_singleton.2 rfl
  exact ⟨_, hmem, (C8_risk_thresholds c8Records 0).1 _ hmem⟩

/-- Counterexample to C8 as stated: on `c8Records` the "ER" unit has delay
frequency exactly 0.3 and average delay 130 > 120, yet the code classifies
it high with probability 0.65 (its frequency threshold is strict), not
critical with 0.85 as the claim's `≥ 0.3` requires. -/
theorem C8_counterexample :
    (predictBottlenecks c8Records 0).map
      (fun p => (p.departmentName, p.riskLevel, p.probability)) =
      [("ER", RiskLevel.high, 13/20)] ∧
    ¬ RiskLevel.high = RiskLevel.critical := by
  constructor
  · norm_num [predictBottlenecks, collectPredMetrics, c8Records, upsert,
      riskAssignOf, daysUntilOf, jsRound]
  · decide

end CareFlow

